import Mathlib

/-
Verification development for the reWiFi connection supervisor
(src/src/reWiFi.cpp, second/current variant of the module: the copy whose
definitions start at the second file header, using the
_WIFI_STA_DISCONNECT_RESTORE bit).

The module is embedded shallowly: the global mutable module state
(status event-group bits, attempt counter, AP-selector index state, the
shared one-shot timer, last error code) becomes the record WifiState;
each C function becomes a Lean function from WifiState to
WifiState (paired with the Bool it returns, where the C function
returns bool).  Outbound event-bus posts (eventLoopPost of RE_WIFI_*
events) are recorded in the notifs trace field; vendor driver
primitives (esp_wifi_*) are recorded in the calls trace field, and the
success of each driver call is drawn from the drvResults oracle list
(an empty oracle means every call succeeds), because the C code only
observes the esp_err_t of each call.

Configuration is compile time in the C code; the WifiConfig record
carries the number of configured network profiles
(CONFIG_WIFI_1_SSID .. CONFIG_WIFI_5_SSID, multi-network mode, i.e. the
CONFIG_WIFI_SSID single-network branch is not selected) and the two
escalation thresholds CONFIG_WIFI_RECONNECT_ATTEMPTS and
CONFIG_WIFI_RESTART_ATTEMPTS.  SSID strings are abstracted by their
profile number: profile k stands for the pair
(CONFIG_WIFI_k_SSID, CONFIG_WIFI_k_PASS).

Timer durations (CONFIG_WIFI_TIMEOUT, CONFIG_WIFI_RECONNECT_DELAY) do
not influence any control flow; the timer is modelled as the pair
(timerExists, timerActive) and vTaskDelay as a no-op.  The esp_wifi_init
error-code-4353 erase-and-retry path and the log calls are not control
flow either and are folded into the single initW driver call.
-/

/-- Driver primitives invoked by the supervisor (the esp_wifi_* calls whose
esp_err_t result the module inspects).  setConfig records which network
profile the credentials passed to esp_wifi_set_config came from. -/
inductive DrvCall where
  | setModeSta
  | setModeNull
  | initW
  | deinitW
  | startW
  | stopW
  | connectW
  | disconnectW
  | restoreW
  | setConfig (profile : Nat)
  deriving DecidableEq

/-- Outbound notifications posted to the event bus (eventLoopPost of the
RE_WIFI_EVENTS ids used by this module). -/
inductive Notif where
  | staInit
  | staStarted
  | staStopped
  | staDisconnected
  | staGotIp
  deriving DecidableEq

/-- A set of status bits, mirroring the EventBits_t masks BIT0..BIT7 of the
module (_WIFI_TCPIP_INIT .. _WIFI_STA_DISCONNECT_RESTORE). -/
@[ext]
structure Bits where
  tcpipInit : Bool
  lowlevelInit : Bool
  staEnabled : Bool
  staStarted : Bool
  staConnected : Bool
  staGotIp : Bool
  discStop : Bool
  discRestore : Bool
  deriving DecidableEq

/-- The empty bit mask (EventBits_t value 0). -/
def Bits.zero : Bits := ⟨false, false, false, false, false, false, false, false⟩

/-- Bitwise union of two masks (the C | operator on EventBits_t). -/
def Bits.or (a b : Bits) : Bits :=
  ⟨a.tcpipInit || b.tcpipInit, a.lowlevelInit || b.lowlevelInit,
   a.staEnabled || b.staEnabled, a.staStarted || b.staStarted,
   a.staConnected || b.staConnected, a.staGotIp || b.staGotIp,
   a.discStop || b.discStop, a.discRestore || b.discRestore⟩

/-- All bits of the mask m are present in b (the C test (x & bits) == bits). -/
def Bits.allIn (m b : Bits) : Bool :=
  (!m.tcpipInit || b.tcpipInit) && (!m.lowlevelInit || b.lowlevelInit) &&
  (!m.staEnabled || b.staEnabled) && (!m.staStarted || b.staStarted) &&
  (!m.staConnected || b.staConnected) && (!m.staGotIp || b.staGotIp) &&
  (!m.discStop || b.discStop) && (!m.discRestore || b.discRestore)

def _WIFI_TCPIP_INIT : Bits := ⟨true, false, false, false, false, false, false, false⟩
def _WIFI_LOWLEVEL_INIT : Bits := ⟨false, true, false, false, false, false, false, false⟩
def _WIFI_STA_ENABLED : Bits := ⟨false, false, true, false, false, false, false, false⟩
def _WIFI_STA_STARTED : Bits := ⟨false, false, false, true, false, false, false, false⟩
def _WIFI_STA_CONNECTED : Bits := ⟨false, false, false, false, true, false, false, false⟩
def _WIFI_STA_GOT_IP : Bits := ⟨false, false, false, false, false, true, false, false⟩
def _WIFI_STA_DISCONNECT_STOP : Bits := ⟨false, false, false, false, false, false, true, false⟩
def _WIFI_STA_DISCONNECT_RESTORE : Bits := ⟨false, false, false, false, false, false, false, true⟩

/-- ESP-IDF reason code WIFI_REASON_UNSPECIFIED. -/
def WIFI_REASON_UNSPECIFIED : Nat := 1

/-- ESP-IDF reason code WIFI_REASON_BEACON_TIMEOUT. -/
def WIFI_REASON_BEACON_TIMEOUT : Nat := 200

/-- Compile-time configuration of the module (multi-network mode). -/
structure WifiConfig where
  numNetworks : Nat
  reconnectAttempts : Nat
  restartAttempts : Nat
  deriving DecidableEq

/-- The global mutable state of the module: the status event group
(hasStatusBits models whether _wifiStatusBits is non-null, the eight Bools
its bits), _wifiAttemptCount, _wifiLastErr, the AP-selector variables
(_wifiMaxIndex, _wifiCurrIndex, _wifiIndexNeedChange, _wifiIndexWasChanged),
the persisted NVS index slot, the shared esp_timer, the driver-result
oracle and the two observation traces. -/
@[ext]
structure WifiState where
  hasStatusBits : Bool
  tcpipInit : Bool
  lowlevelInit : Bool
  staEnabled : Bool
  staStarted : Bool
  staConnected : Bool
  staGotIp : Bool
  discStop : Bool
  discRestore : Bool
  attemptCount : Nat
  lastErr : Nat
  maxIndex : Nat
  currIndex : Nat
  nvsIndex : Option Nat
  indexNeedChange : Bool
  indexWasChanged : Bool
  timerExists : Bool
  timerActive : Bool
  drvResults : List Bool
  calls : List DrvCall
  notifs : List Notif
  deriving DecidableEq

/-- Perform one driver call: record it in the trace and consume the next
result from the oracle (an exhausted oracle yields success). -/
def drvCall (s : WifiState) (c : DrvCall) : WifiState × Bool :=
  match s.drvResults with
  | [] => ({ s with calls := s.calls ++ [c] }, true)
  | r :: rest => ({ s with drvResults := rest, calls := s.calls ++ [c] }, r)

/-- Post one outbound notification (eventLoopPost on RE_WIFI_EVENTS). -/
def eventLoopPost (s : WifiState) (n : Notif) : WifiState :=
  { s with notifs := s.notifs ++ [n] }

/-- wifiStatusGet: current bits, 0 when the event group does not exist. -/
def wifiStatusGet (s : WifiState) : Bits :=
  if s.hasStatusBits then
    ⟨s.tcpipInit, s.lowlevelInit, s.staEnabled, s.staStarted,
     s.staConnected, s.staGotIp, s.discStop, s.discRestore⟩
  else Bits.zero

/-- Set the bits of the mask m in the state (xEventGroupSetBits). -/
def applySet (s : WifiState) (m : Bits) : WifiState :=
  { s with
    tcpipInit := s.tcpipInit || m.tcpipInit,
    lowlevelInit := s.lowlevelInit || m.lowlevelInit,
    staEnabled := s.staEnabled || m.staEnabled,
    staStarted := s.staStarted || m.staStarted,
    staConnected := s.staConnected || m.staConnected,
    staGotIp := s.staGotIp || m.staGotIp,
    discStop := s.discStop || m.discStop,
    discRestore := s.discRestore || m.discRestore }

/-- Clear the bits of the mask m in the state (xEventGroupClearBits). -/
def applyClear (s : WifiState) (m : Bits) : WifiState :=
  { s with
    tcpipInit := s.tcpipInit && !m.tcpipInit,
    lowlevelInit := s.lowlevelInit && !m.lowlevelInit,
    staEnabled := s.staEnabled && !m.staEnabled,
    staStarted := s.staStarted && !m.staStarted,
    staConnected := s.staConnected && !m.staConnected,
    staGotIp := s.staGotIp && !m.staGotIp,
    discStop := s.discStop && !m.discStop,
    discRestore := s.discRestore && !m.discRestore }

/-- wifiStatusSet: fails (returning false, state unchanged) when the event
group is null; otherwise sets the bits.  In the sequential model the
post-condition re-check of the C code cannot fail. -/
def wifiStatusSet (s : WifiState) (m : Bits) : WifiState × Bool :=
  if s.hasStatusBits then (applySet s m, true) else (s, false)

/-- wifiStatusClear: fails when the event group is null; otherwise clears
the bits (the diagnostic re-read of the C code cannot fail sequentially). -/
def wifiStatusClear (s : WifiState) (m : Bits) : WifiState × Bool :=
  if s.hasStatusBits then (applyClear s m, true) else (s, false)

/-- wifiStatusCheck: true iff all bits of the mask are currently set; with
clearOnExit the bits are cleared and the pre-clear value is reported
(xEventGroupClearBits returns the prior bits). -/
def wifiStatusCheck (s : WifiState) (m : Bits) (clearOnExit : Bool) : WifiState × Bool :=
  if s.hasStatusBits then
    if clearOnExit then (applyClear s m, Bits.allIn m (wifiStatusGet s))
    else (s, Bits.allIn m (wifiStatusGet s))
  else (s, false)

/-- wifiIsEnabled: the _WIFI_STA_ENABLED bit is set. -/
def wifiIsEnabled (s : WifiState) : Bool :=
  (wifiStatusCheck s _WIFI_STA_ENABLED false).2

/-- wifiIsConnected: both _WIFI_STA_CONNECTED and _WIFI_STA_GOT_IP are set. -/
def wifiIsConnected (s : WifiState) : Bool :=
  (wifiStatusCheck s (Bits.or _WIFI_STA_CONNECTED _WIFI_STA_GOT_IP) false).2

/-- wifiTimeoutCreate: stop the timer when it already exists, create it
(inactive) otherwise. -/
def wifiTimeoutCreate (s : WifiState) : WifiState :=
  { s with timerExists := true, timerActive := false }

/-- wifiTimeoutStart: (re)create if needed, stop a running instance and arm
the one-shot timer.  The millisecond duration plays no role in the model. -/
def wifiTimeoutStart (s : WifiState) : WifiState :=
  { s with timerExists := true, timerActive := true }

/-- wifiTimeoutStop: disarm the timer when it exists and is running. -/
def wifiTimeoutStop (s : WifiState) : WifiState :=
  if s.timerExists && s.timerActive then { s with timerActive := false } else s

/-- wifiTimeoutDelete: stop and delete the timer. -/
def wifiTimeoutDelete (s : WifiState) : WifiState :=
  if s.timerExists then { s with timerExists := false, timerActive := false } else s

/-- wifiGetMaxIndex: the compile-time number of configured profiles
(multi-network mode: the largest k with CONFIG_WIFI_k_SSID defined). -/
def wifiGetMaxIndex (cfg : WifiConfig) : Nat := cfg.numNetworks

/-- The credential switch of wifiConnectSTA (and the identical switch of
wifiGetSSID): case k exists iff profile k is configured; case 1 and the
default both yield profile 1. -/
def wifiSelectProfile (cfg : WifiConfig) (i : Nat) : Nat :=
  if i = 1 then 1
  else if i = 2 ∧ 2 ≤ cfg.numNetworks then 2
  else if i = 3 ∧ 3 ≤ cfg.numNetworks then 3
  else if i = 4 ∧ 4 ≤ cfg.numNetworks then 4
  else if i = 5 ∧ 5 ≤ cfg.numNetworks then 5
  else 1

/-- wifiGetSSID (multi-network mode): the SSID of the profile selected by
_wifiCurrIndex, profile 1 for any index without a configured case.  SSIDs
are abstracted by their profile number. -/
def wifiGetSSID (cfg : WifiConfig) (s : WifiState) : Nat :=
  if s.currIndex = 1 then 1
  else if s.currIndex = 2 ∧ 2 ≤ cfg.numNetworks then 2
  else if s.currIndex = 3 ∧ 3 ≤ cfg.numNetworks then 3
  else if s.currIndex = 4 ∧ 4 ≤ cfg.numNetworks then 4
  else if s.currIndex = 5 ∧ 5 ≤ cfg.numNetworks then 5
  else 1

/-- wifiConnectSTA (multi-network branch): resolve the profile index (load
the persisted index on the first attempt, defaulting to 1 and marking the
change; advance circularly when _wifiIndexNeedChange is set, this uint8
increment wraps modulo 256), push the credentials of the selected profile
to the driver, then bump _wifiAttemptCount, arm the phase timer and ask the
driver to connect. -/
def wifiConnectSTA (cfg : WifiConfig) (s0 : WifiState) : WifiState × Bool :=
  let s1 :=
    if s0.currIndex = 0 then
      let sA := { s0 with
        maxIndex := wifiGetMaxIndex cfg,
        indexNeedChange := false,
        indexWasChanged := false }
      let sB := { sA with currIndex := sA.nvsIndex.getD sA.currIndex }
      if sB.currIndex = 0 then
        { sB with currIndex := 1, indexNeedChange := true, indexWasChanged := true }
      else sB
    else
      if s0.indexNeedChange then
        let ni := (s0.currIndex + 1) % 256
        { s0 with currIndex := if ni > s0.maxIndex then 1 else ni,
                  indexWasChanged := true }
      else s0
  let t := drvCall s1 (DrvCall.setConfig (wifiSelectProfile cfg s1.currIndex))
  if t.2 then
    let s3 := { t.1 with attemptCount := t.1.attemptCount + 1 }
    drvCall (wifiTimeoutStart s3) DrvCall.connectW
  else (t.1, false)

/-- _wifiStartSTA: set STA mode, start the driver, arm the phase timer. -/
def _wifiStartSTA (s : WifiState) : WifiState × Bool :=
  let t1 := drvCall s DrvCall.setModeSta
  if !t1.2 then (t1.1, false) else
  let t2 := drvCall t1.1 DrvCall.startW
  if !t2.2 then (t2.1, false) else
  (wifiTimeoutStart t2.1, true)

/-- _wifiDisconnectSTA: mark the requested next stage (when the mask is
non-zero), ask the driver to disconnect, arm the phase timer. -/
def _wifiDisconnectSTA (s : WifiState) (next_stage : Bits) : WifiState × Bool :=
  let s1 := if next_stage ≠ Bits.zero then (wifiStatusSet s next_stage).1 else s
  let t := drvCall s1 DrvCall.disconnectW
  if !t.2 then (t.1, false) else
  (wifiTimeoutStart t.1, true)

/-- _wifiStopSTA: ask the driver to stop. -/
def _wifiStopSTA (s : WifiState) : WifiState × Bool :=
  drvCall s DrvCall.stopW

/-- _wifiRestoreSTA: restore the persistent driver settings to defaults and
arm the phase timer. -/
def _wifiRestoreSTA (s : WifiState) : WifiState × Bool :=
  let t := drvCall s DrvCall.restoreW
  if !t.2 then (t.1, false) else
  (wifiTimeoutStart t.1, true)

/-- wifiStartWiFi: start STA mode unless already started. -/
def wifiStartWiFi (s : WifiState) : WifiState × Bool :=
  if !(wifiStatusCheck s _WIFI_STA_STARTED false).2 then _wifiStartSTA s
  else (s, true)

/-- wifiStopWiFi: when connected, disconnect with the stop stage pending;
when merely started, stop the driver; otherwise nothing to do. -/
def wifiStopWiFi (s : WifiState) : WifiState × Bool :=
  if (wifiStatusCheck s _WIFI_STA_CONNECTED false).2 then
    _wifiDisconnectSTA s _WIFI_STA_DISCONNECT_STOP
  else
    if (wifiStatusCheck s _WIFI_STA_STARTED false).2 then _wifiStopSTA s
    else (s, true)

/-- wifiRestartWiFi: when connected, disconnect with the restore stage
pending; when started, stop (the stop event restarts); otherwise start. -/
def wifiRestartWiFi (s : WifiState) : WifiState × Bool :=
  if (wifiStatusCheck s _WIFI_STA_CONNECTED false).2 then
    _wifiDisconnectSTA s _WIFI_STA_DISCONNECT_RESTORE
  else
    if (wifiStatusCheck s _WIFI_STA_STARTED false).2 then _wifiStopSTA s
    else _wifiStartSTA s

/-- wifiReconnectWiFi: the escalation entry point.  A pending
disconnect-stop completes the stop, a pending disconnect-restore performs
the factory restore; otherwise, while enabled and started, exceed the
restart threshold and restart the adapter, exceed the reconnect threshold
and mark the profile for change, then connect again (with the fixed delay
unless an index change is pending); enabled but not started starts STA;
disabled performs a full stop and reports false. -/
def wifiReconnectWiFi (cfg : WifiConfig) (s : WifiState) : WifiState × Bool :=
  let c1 := wifiStatusCheck s _WIFI_STA_DISCONNECT_STOP true
  if c1.2 then _wifiStopSTA c1.1
  else
    let c2 := wifiStatusCheck c1.1 _WIFI_STA_DISCONNECT_RESTORE true
    if c2.2 then _wifiRestoreSTA c2.1
    else
      if (wifiStatusCheck c2.1 _WIFI_STA_ENABLED false).2 then
        if (wifiStatusCheck c2.1 _WIFI_STA_STARTED false).2 then
          if c2.1.attemptCount > cfg.restartAttempts then wifiRestartWiFi c2.1
          else
            let s3 :=
              if c2.1.attemptCount > cfg.reconnectAttempts then
                { c2.1 with indexNeedChange := true }
              else c2.1
            wifiConnectSTA cfg s3
        else _wifiStartSTA c2.1
      else
        ((wifiStopWiFi c2.1).1, false)

/-- The recovery pattern wrapped around every wifiReconnectWiFi call site in
the event handlers and in wifiTimeoutEnd: when reconnection reports
failure, restore factory settings and stop the driver. -/
def wifiReconnectOrDie (cfg : WifiConfig) (s : WifiState) : WifiState :=
  let t := wifiReconnectWiFi cfg s
  if t.2 then t.1
  else (_wifiStopSTA (_wifiRestoreSTA t.1).1).1

/-- wifiTimeoutEnd: the shared timeout timer fired; run the escalation and
fall back to restore-then-stop when it reports failure. -/
def wifiTimeoutEnd (cfg : WifiConfig) (s : WifiState) : WifiState :=
  wifiReconnectOrDie cfg s

/-- The three event classes dispatched to wifiEventHandler_Disconnect:
WIFI_EVENT_STA_DISCONNECTED (with or without its reason payload),
WIFI_EVENT_STA_BEACON_TIMEOUT and IP_EVENT_STA_LOST_IP. -/
inductive DiscEvent where
  | disconnected (reason : Nat) (hasData : Bool)
  | beaconTimeout
  | lostIp
  deriving DecidableEq

/-- wifiEventHandler_Start (WIFI_EVENT_STA_START): set Enabled and Started,
clear the link bits and both pending-disconnect flags, reset the attempt
counter and the last error, notify started, connect (stopping the driver
when the connect attempt fails). -/
def wifiEventHandler_Start (cfg : WifiConfig) (s : WifiState) : WifiState :=
  let s1 := (wifiStatusSet s (Bits.or _WIFI_STA_ENABLED _WIFI_STA_STARTED)).1
  let s2 := (wifiStatusClear s1
    (Bits.or (Bits.or _WIFI_STA_CONNECTED _WIFI_STA_GOT_IP)
      (Bits.or _WIFI_STA_DISCONNECT_STOP _WIFI_STA_DISCONNECT_RESTORE))).1
  let s3 := { s2 with attemptCount := 0, lastErr := 0 }
  let s4 := eventLoopPost s3 Notif.staStarted
  let t := wifiConnectSTA cfg s4
  if t.2 then t.1 else (_wifiStopSTA t.1).1

/-- wifiEventHandler_Connect (WIFI_EVENT_STA_CONNECTED): set Connected,
clear GotIp and both pending-disconnect flags, clear the need-change flag
and persist the index when it was changed, re-arm the IP-phase timer. -/
def wifiEventHandler_Connect (s : WifiState) : WifiState :=
  let s1 := (wifiStatusSet s _WIFI_STA_CONNECTED).1
  let s2 := (wifiStatusClear s1
    (Bits.or _WIFI_STA_GOT_IP
      (Bits.or _WIFI_STA_DISCONNECT_STOP _WIFI_STA_DISCONNECT_RESTORE))).1
  let s3 := { s2 with indexNeedChange := false }
  let s4 :=
    if s3.indexWasChanged then
      { s3 with nvsIndex := some s3.currIndex, indexWasChanged := false }
    else s3
  wifiTimeoutStart s4

/-- wifiEventHandler_Disconnect (STA_DISCONNECTED, STA_BEACON_TIMEOUT and
STA_LOST_IP): snapshot the Connected and GotIp bits, clear them, stop the
timer; while enabled, record the reason and post the connection-lost
notification (for disconnect and beacon-timeout only when the snapshot was
fully up; for lost-ip unconditionally) and run the escalation; while
disabled, stop WiFi. -/
def wifiEventHandler_Disconnect (cfg : WifiConfig) (ev : DiscEvent) (s : WifiState) : WifiState :=
  let prev := wifiStatusGet s
  let isWasConnected := prev.staConnected
  let isWasIP := prev.staGotIp
  let s1 := (wifiStatusClear s (Bits.or _WIFI_STA_CONNECTED _WIFI_STA_GOT_IP)).1
  let s2 := wifiTimeoutStop s1
  if (wifiStatusCheck s2 _WIFI_STA_ENABLED false).2 then
    match ev with
    | DiscEvent.beaconTimeout =>
        let s3 := { s2 with lastErr := WIFI_REASON_BEACON_TIMEOUT }
        let s4 :=
          if isWasConnected && isWasIP then eventLoopPost s3 Notif.staDisconnected
          else s3
        wifiReconnectOrDie cfg s4
    | DiscEvent.lostIp =>
        let s3 := eventLoopPost s2 Notif.staDisconnected
        wifiReconnectOrDie cfg s3
    | DiscEvent.disconnected reason hasData =>
        let s3 := { s2 with lastErr := if hasData then reason else WIFI_REASON_UNSPECIFIED }
        let s4 :=
          if isWasConnected && isWasIP then eventLoopPost s3 Notif.staDisconnected
          else s3
        wifiReconnectOrDie cfg s4
  else (wifiStopWiFi s2).1

/-- wifiLowLevelDeinit: while the low-level bit is set, clear the operating
mode, unregister the handlers, deinit the driver, free the netif and clear
the low-level bit. -/
def wifiLowLevelDeinit (s : WifiState) : WifiState × Bool :=
  if (wifiStatusCheck s _WIFI_LOWLEVEL_INIT false).2 then
    let t1 := drvCall s DrvCall.setModeNull
    if !t1.2 then (t1.1, false) else
    let t2 := drvCall t1.1 DrvCall.deinitW
    if !t2.2 then (t2.1, false) else
    wifiStatusClear t2.1 _WIFI_LOWLEVEL_INIT
  else (s, true)

/-- wifiEventHandler_Stop (WIFI_EVENT_STA_STOP): clear Started, Connected
and GotIp, notify stopped, delete the timer; restart when still enabled,
otherwise release the low-level driver resources. -/
def wifiEventHandler_Stop (s : WifiState) : WifiState :=
  let s1 := (wifiStatusClear s
    (Bits.or _WIFI_STA_STARTED (Bits.or _WIFI_STA_CONNECTED _WIFI_STA_GOT_IP))).1
  let s2 := eventLoopPost s1 Notif.staStopped
  let s3 := wifiTimeoutDelete s2
  if (wifiStatusCheck s3 _WIFI_STA_ENABLED false).2 then (wifiStartWiFi s3).1
  else (wifiLowLevelDeinit s3).1

/-- wifiEventHandler_GotIP (IP_EVENT_STA_GOT_IP): set GotIp, reset the
attempt counter and the last error, notify got-ip, delete the timer. -/
def wifiEventHandler_GotIP (s : WifiState) : WifiState :=
  let s1 := (wifiStatusSet s _WIFI_STA_GOT_IP).1
  let s2 := { s1 with attemptCount := 0, lastErr := 0 }
  let s3 := eventLoopPost s2 Notif.staGotIp
  wifiTimeoutDelete s3

/-- wifiTcpIpInit: event-loop creation and netif init are modelled as
succeeding; set the TCP-IP initialization bit. -/
def wifiTcpIpInit (s : WifiState) : WifiState × Bool :=
  wifiStatusSet s _WIFI_TCPIP_INIT

/-- wifiLowLevelInit: when not yet initialized, post the init notification,
initialize TCP-IP if needed, init the driver (one initW call: the
error-4353 erase-and-retry path is folded into its result), register the
handlers and set the low-level bit; when already initialized, report
false. -/
def wifiLowLevelInit (s : WifiState) : WifiState × Bool :=
  if !(wifiStatusCheck s _WIFI_LOWLEVEL_INIT false).2 then
    let s0 := eventLoopPost s Notif.staInit
    let t1 :=
      if !(wifiStatusCheck s0 _WIFI_TCPIP_INIT false).2 then wifiTcpIpInit s0
      else (s0, true)
    if !t1.2 then (t1.1, false) else
    let t2 := drvCall t1.1 DrvCall.initW
    if !t2.2 then (t2.1, false) else
    wifiStatusSet t2.1 _WIFI_LOWLEVEL_INIT
  else (s, false)

/-- wifiInit: create the status event group (all bits cleared) when it does
not yet exist; parameter registration has no effect on this state. -/
def wifiInit (s : WifiState) : WifiState × Bool :=
  if !s.hasStatusBits then
    ({ s with
       hasStatusBits := true,
       tcpipInit := false, lowlevelInit := false,
       staEnabled := false, staStarted := false,
       staConnected := false, staGotIp := false,
       discStop := false, discRestore := false }, true)
  else (s, true)

/-- wifiStop: clear the Enabled bit (its result is discarded) and stop
WiFi. -/
def wifiStop (s : WifiState) : WifiState × Bool :=
  let s1 := (wifiStatusClear s _WIFI_STA_ENABLED).1
  wifiStopWiFi s1

/-- wifiStart: initialize the status register if absent, stop any prior
session, perform the low-level init, set Enabled, start WiFi; each step
runs only while the previous ones reported success. -/
def wifiStart (s : WifiState) : WifiState × Bool :=
  let t1 := if !s.hasStatusBits then wifiInit s else (s, true)
  if !t1.2 then (t1.1, false) else
  let t2 := wifiStop t1.1
  if !t2.2 then (t2.1, false) else
  let t3 := wifiLowLevelInit t2.1
  if !t3.2 then (t3.1, false) else
  let t4 := wifiStatusSet t3.1 _WIFI_STA_ENABLED
  if !t4.2 then (t4.1, false) else
  wifiStartWiFi t4.1

/-- wifiFree: stop (propagating failure), then delete the status event
group. -/
def wifiFree (s : WifiState) : WifiState × Bool :=
  let t := wifiStop s
  if !t.2 then (t.1, false)
  else if t.1.hasStatusBits then ({ t.1 with hasStatusBits := false }, true)
  else (t.1, true)

/-- One step of the supervisor: a driver or IP event delivered to its
registered handler, a public operation, or the shared timeout firing. -/
inductive WifiEv where
  | evStart
  | evConnect
  | evDisconnect (d : DiscEvent)
  | evStop
  | evGotIp
  | opInit
  | opStart
  | opStop
  | opFree
  | opTimerFire
  deriving DecidableEq

/-- Apply one event or operation to the state (results are discarded, as
the event loop discards them). -/
def stepEv (cfg : WifiConfig) (e : WifiEv) (s : WifiState) : WifiState :=
  match e with
  | WifiEv.evStart => wifiEventHandler_Start cfg s
  | WifiEv.evConnect => wifiEventHandler_Connect s
  | WifiEv.evDisconnect d => wifiEventHandler_Disconnect cfg d s
  | WifiEv.evStop => wifiEventHandler_Stop s
  | WifiEv.evGotIp => wifiEventHandler_GotIP s
  | WifiEv.opInit => (wifiInit s).1
  | WifiEv.opStart => (wifiStart s).1
  | WifiEv.opStop => (wifiStop s).1
  | WifiEv.opFree => (wifiFree s).1
  | WifiEv.opTimerFire => wifiTimeoutEnd cfg s

/-- Run a sequence of events and operations from a state. -/
def wifiRun (cfg : WifiConfig) (s : WifiState) (evs : List WifiEv) : WifiState :=
  evs.foldl (fun t e => stepEv cfg e t) s

/-- The all-clear boot state: no status event group, every counter zero, no
profile index resolved yet, an empty (all-success) driver oracle. -/
def initState : WifiState :=
  ⟨false, false, false, false, false, false, false, false, false,
   0, 0, 0, 0, none, false, false, false, false, [], [], []⟩

/-- A sequence of events is driver-consistent when every got-ip event is
delivered while the link is connected (the network stack only reports an
address on an established link); all other events may occur anywhere. -/
def okRun (cfg : WifiConfig) : WifiState → List WifiEv → Bool
  | _, [] => true
  | s, WifiEv.evGotIp :: rest =>
      (!s.hasStatusBits || s.staConnected) && okRun cfg (stepEv cfg WifiEv.evGotIp s) rest
  | s, e :: rest => okRun cfg (stepEv cfg e s) rest

/-
Proof toolkit: canonical equations for the primitive operations and
projection distribution lemmas, so that simp can compute any field of the
state produced by the composite functions, followed by frame lemmas.
-/

@[simp] theorem drvCall_eq (s : WifiState) (c : DrvCall) :
    drvCall s c =
      ({ s with drvResults := s.drvResults.tail, calls := s.calls ++ [c] },
       s.drvResults.headD true) := by
  cases h : s.drvResults <;> simp [drvCall, h]

@[simp] theorem wifiStatusSet_eq (s : WifiState) (m : Bits) :
    wifiStatusSet s m = (if s.hasStatusBits then applySet s m else s, s.hasStatusBits) := by
  by_cases h : s.hasStatusBits <;> simp [wifiStatusSet, h]

@[simp] theorem wifiStatusClear_eq (s : WifiState) (m : Bits) :
    wifiStatusClear s m = (if s.hasStatusBits then applyClear s m else s, s.hasStatusBits) := by
  by_cases h : s.hasStatusBits <;> simp [wifiStatusClear, h]

@[simp] theorem wifiStatusCheck_eq (s : WifiState) (m : Bits) (c : Bool) :
    wifiStatusCheck s m c =
      (if s.hasStatusBits && c then applyClear s m else s,
       s.hasStatusBits && Bits.allIn m (wifiStatusGet s)) := by
  by_cases h : s.hasStatusBits <;> cases c <;> simp [wifiStatusCheck, h]

@[simp] theorem wifiTimeoutStop_eq (s : WifiState) :
    wifiTimeoutStop s = { s with timerActive := s.timerActive && !s.timerExists } := by
  unfold wifiTimeoutStop
  by_cases he : s.timerExists <;> by_cases ha : s.timerActive <;>
    (simp [he, ha]; try (ext <;> simp [he, ha]))

@[simp] theorem wifiTimeoutDelete_eq (s : WifiState) :
    wifiTimeoutDelete s =
      { s with timerExists := false, timerActive := s.timerActive && !s.timerExists } := by
  unfold wifiTimeoutDelete
  by_cases he : s.timerExists <;> (simp [he]; try (ext <;> simp [he]))

/-
Projection-over-ite distribution lemmas: they let simp compute any single
field of the state produced by the branching composite functions.
-/

@[simp] theorem ite_hasStatusBits (c : Prop) [Decidable c] (a b : WifiState) :
    (ite c a b).hasStatusBits = ite c a.hasStatusBits b.hasStatusBits := by
  split <;> rfl

@[simp] theorem ite_tcpipInit (c : Prop) [Decidable c] (a b : WifiState) :
    (ite c a b).tcpipInit = ite c a.tcpipInit b.tcpipInit := by
  split <;> rfl

@[simp] theorem ite_lowlevelInit (c : Prop) [Decidable c] (a b : WifiState) :
    (ite c a b).lowlevelInit = ite c a.lowlevelInit b.lowlevelInit := by
  split <;> rfl

@[simp] theorem ite_staEnabled (c : Prop) [Decidable c] (a b : WifiState) :
    (ite c a b).staEnabled = ite c a.staEnabled b.staEnabled := by
  split <;> rfl

@[simp] theorem ite_staStarted (c : Prop) [Decidable c] (a b : WifiState) :
    (ite c a b).staStarted = ite c a.staStarted b.staStarted := by
  split <;> rfl

@[simp] theorem ite_staConnected (c : Prop) [Decidable c] (a b : WifiState) :
    (ite c a b).staConnected = ite c a.staConnected b.staConnected := by
  split <;> rfl

@[simp] theorem ite_staGotIp (c : Prop) [Decidable c] (a b : WifiState) :
    (ite c a b).staGotIp = ite c a.staGotIp b.staGotIp := by
  split <;> rfl

@[simp] theorem ite_discStop (c : Prop) [Decidable c] (a b : WifiState) :
    (ite c a b).discStop = ite c a.discStop b.discStop := by
  split <;> rfl

@[simp] theorem ite_discRestore (c : Prop) [Decidable c] (a b : WifiState) :
    (ite c a b).discRestore = ite c a.discRestore b.discRestore := by
  split <;> rfl

@[simp] theorem ite_attemptCount (c : Prop) [Decidable c] (a b : WifiState) :
    (ite c a b).attemptCount = ite c a.attemptCount b.attemptCount := by
  split <;> rfl

@[simp] theorem ite_lastErr (c : Prop) [Decidable c] (a b : WifiState) :
    (ite c a b).lastErr = ite c a.lastErr b.lastErr := by
  split <;> rfl

@[simp] theorem ite_maxIndex (c : Prop) [Decidable c] (a b : WifiState) :
    (ite c a b).maxIndex = ite c a.maxIndex b.maxIndex := by
  split <;> rfl

@[simp] theorem ite_currIndex (c : Prop) [Decidable c] (a b : WifiState) :
    (ite c a b).currIndex = ite c a.currIndex b.currIndex := by
  split <;> rfl

@[simp] theorem ite_nvsIndex (c : Prop) [Decidable c] (a b : WifiState) :
    (ite c a b).nvsIndex = ite c a.nvsIndex b.nvsIndex := by
  split <;> rfl

@[simp] theorem ite_indexNeedChange (c : Prop) [Decidable c] (a b : WifiState) :
    (ite c a b).indexNeedChange = ite c a.indexNeedChange b.indexNeedChange := by
  split <;> rfl

@[simp] theorem ite_indexWasChanged (c : Prop) [Decidable c] (a b : WifiState) :
    (ite c a b).indexWasChanged = ite c a.indexWasChanged b.indexWasChanged := by
  split <;> rfl

@[simp] theorem ite_timerExists (c : Prop) [Decidable c] (a b : WifiState) :
    (ite c a b).timerExists = ite c a.timerExists b.timerExists := by
  split <;> rfl

@[simp] theorem ite_timerActive (c : Prop) [Decidable c] (a b : WifiState) :
    (ite c a b).timerActive = ite c a.timerActive b.timerActive := by
  split <;> rfl

@[simp] theorem ite_drvResults (c : Prop) [Decidable c] (a b : WifiState) :
    (ite c a b).drvResults = ite c a.drvResults b.drvResults := by
  split <;> rfl

@[simp] theorem ite_calls (c : Prop) [Decidable c] (a b : WifiState) :
    (ite c a b).calls = ite c a.calls b.calls := by
  split <;> rfl

@[simp] theorem ite_notifs (c : Prop) [Decidable c] (a b : WifiState) :
    (ite c a b).notifs = ite c a.notifs b.notifs := by
  split <;> rfl

@[simp] theorem ite_pair_fst {a : Type} {b : Type} (c : Prop) [Decidable c] (x y : a × b) :
    (ite c x y).1 = ite c x.1 y.1 := by
  split <;> rfl

@[simp] theorem ite_pair_snd {a : Type} {b : Type} (c : Prop) [Decidable c] (x y : a × b) :
    (ite c x y).2 = ite c x.2 y.2 := by
  split <;> rfl

theorem notifs_startSTA (s : WifiState) :
    ((_wifiStartSTA s).1).notifs = s.notifs := by
  simp [_wifiStartSTA, wifiTimeoutStart]

theorem notifs_stopSTA (s : WifiState) :
    ((_wifiStopSTA s).1).notifs = s.notifs := by
  simp [_wifiStopSTA]

theorem notifs_restoreSTA (s : WifiState) :
    ((_wifiRestoreSTA s).1).notifs = s.notifs := by
  simp [_wifiRestoreSTA, wifiTimeoutStart]

theorem notifs_disconnectSTA (s : WifiState) (m : Bits) :
    ((_wifiDisconnectSTA s m).1).notifs = s.notifs := by
  simp [_wifiDisconnectSTA, wifiTimeoutStart, applySet]

theorem notifs_connectSTA (cfg : WifiConfig) (s : WifiState) :
    ((wifiConnectSTA cfg s).1).notifs = s.notifs := by
  simp [wifiConnectSTA, wifiTimeoutStart]

theorem notifs_startWiFi (s : WifiState) :
    ((wifiStartWiFi s).1).notifs = s.notifs := by
  simp [wifiStartWiFi, notifs_startSTA]

theorem notifs_stopWiFi (s : WifiState) :
    ((wifiStopWiFi s).1).notifs = s.notifs := by
  simp [wifiStopWiFi, notifs_disconnectSTA, notifs_stopSTA]

theorem notifs_restartWiFi (s : WifiState) :
    ((wifiRestartWiFi s).1).notifs = s.notifs := by
  simp [wifiRestartWiFi, notifs_disconnectSTA, notifs_stopSTA, notifs_startSTA]

theorem notifs_reconnect (cfg : WifiConfig) (s : WifiState) :
    ((wifiReconnectWiFi cfg s).1).notifs = s.notifs := by
  simp [wifiReconnectWiFi, notifs_stopSTA, notifs_restoreSTA, notifs_restartWiFi,
    notifs_connectSTA, notifs_startSTA, notifs_stopWiFi, applyClear]

theorem notifs_reconnectOrDie (cfg : WifiConfig) (s : WifiState) :
    (wifiReconnectOrDie cfg s).notifs = s.notifs := by
  simp [wifiReconnectOrDie, notifs_reconnect, notifs_stopSTA, notifs_restoreSTA]

@[simp] theorem statusGet_tcpipInit (s : WifiState) :
    (wifiStatusGet s).tcpipInit = (s.hasStatusBits && s.tcpipInit) := by
  by_cases h : s.hasStatusBits <;> simp [wifiStatusGet, h, Bits.zero]

@[simp] theorem statusGet_lowlevelInit (s : WifiState) :
    (wifiStatusGet s).lowlevelInit = (s.hasStatusBits && s.lowlevelInit) := by
  by_cases h : s.hasStatusBits <;> simp [wifiStatusGet, h, Bits.zero]

@[simp] theorem statusGet_staEnabled (s : WifiState) :
    (wifiStatusGet s).staEnabled = (s.hasStatusBits && s.staEnabled) := by
  by_cases h : s.hasStatusBits <;> simp [wifiStatusGet, h, Bits.zero]

@[simp] theorem statusGet_staStarted (s : WifiState) :
    (wifiStatusGet s).staStarted = (s.hasStatusBits && s.staStarted) := by
  by_cases h : s.hasStatusBits <;> simp [wifiStatusGet, h, Bits.zero]

@[simp] theorem statusGet_staConnected (s : WifiState) :
    (wifiStatusGet s).staConnected = (s.hasStatusBits && s.staConnected) := by
  by_cases h : s.hasStatusBits <;> simp [wifiStatusGet, h, Bits.zero]

@[simp] theorem statusGet_staGotIp (s : WifiState) :
    (wifiStatusGet s).staGotIp = (s.hasStatusBits && s.staGotIp) := by
  by_cases h : s.hasStatusBits <;> simp [wifiStatusGet, h, Bits.zero]

@[simp] theorem statusGet_discStop (s : WifiState) :
    (wifiStatusGet s).discStop = (s.hasStatusBits && s.discStop) := by
  by_cases h : s.hasStatusBits <;> simp [wifiStatusGet, h, Bits.zero]

@[simp] theorem statusGet_discRestore (s : WifiState) :
    (wifiStatusGet s).discRestore = (s.hasStatusBits && s.discRestore) := by
  by_cases h : s.hasStatusBits <;> simp [wifiStatusGet, h, Bits.zero]

@[simp] theorem allIn_tcpip (b : Bits) :
    Bits.allIn _WIFI_TCPIP_INIT b = b.tcpipInit := by
  simp [Bits.allIn, _WIFI_TCPIP_INIT]

@[simp] theorem allIn_lowlevel (b : Bits) :
    Bits.allIn _WIFI_LOWLEVEL_INIT b = b.lowlevelInit := by
  simp [Bits.allIn, _WIFI_LOWLEVEL_INIT]

@[simp] theorem allIn_enabled (b : Bits) :
    Bits.allIn _WIFI_STA_ENABLED b = b.staEnabled := by
  simp [Bits.allIn, _WIFI_STA_ENABLED]

@[simp] theorem allIn_started (b : Bits) :
    Bits.allIn _WIFI_STA_STARTED b = b.staStarted := by
  simp [Bits.allIn, _WIFI_STA_STARTED]

@[simp] theorem allIn_connected (b : Bits) :
    Bits.allIn _WIFI_STA_CONNECTED b = b.staConnected := by
  simp [Bits.allIn, _WIFI_STA_CONNECTED]

@[simp] theorem allIn_gotIp (b : Bits) :
    Bits.allIn _WIFI_STA_GOT_IP b = b.staGotIp := by
  simp [Bits.allIn, _WIFI_STA_GOT_IP]

@[simp] theorem allIn_discStop (b : Bits) :
    Bits.allIn _WIFI_STA_DISCONNECT_STOP b = b.discStop := by
  simp [Bits.allIn, _WIFI_STA_DISCONNECT_STOP]

@[simp] theorem allIn_discRestore (b : Bits) :
    Bits.allIn _WIFI_STA_DISCONNECT_RESTORE b = b.discRestore := by
  simp [Bits.allIn, _WIFI_STA_DISCONNECT_RESTORE]

@[simp] theorem allIn_connected_gotIp (b : Bits) :
    Bits.allIn (Bits.or _WIFI_STA_CONNECTED _WIFI_STA_GOT_IP) b =
      (b.staConnected && b.staGotIp) := by
  simp [Bits.allIn, Bits.or, _WIFI_STA_CONNECTED, _WIFI_STA_GOT_IP, Bool.and_comm]

@[simp] theorem applyClear_conn_gotIp (s : WifiState) :
    applyClear s (Bits.or _WIFI_STA_CONNECTED _WIFI_STA_GOT_IP) =
      { s with staConnected := false, staGotIp := false } := by
  simp [applyClear, Bits.or, _WIFI_STA_CONNECTED, _WIFI_STA_GOT_IP]

@[simp] theorem applyClear_start_handler_mask (s : WifiState) :
    applyClear s (Bits.or (Bits.or _WIFI_STA_CONNECTED _WIFI_STA_GOT_IP)
        (Bits.or _WIFI_STA_DISCONNECT_STOP _WIFI_STA_DISCONNECT_RESTORE)) =
      { s with staConnected := false, staGotIp := false,
               discStop := false, discRestore := false } := by
  simp [applyClear, Bits.or, _WIFI_STA_CONNECTED, _WIFI_STA_GOT_IP,
    _WIFI_STA_DISCONNECT_STOP, _WIFI_STA_DISCONNECT_RESTORE]

@[simp] theorem applyClear_connect_handler_mask (s : WifiState) :
    applyClear s (Bits.or _WIFI_STA_GOT_IP
        (Bits.or _WIFI_STA_DISCONNECT_STOP _WIFI_STA_DISCONNECT_RESTORE)) =
      { s with staGotIp := false, discStop := false, discRestore := false } := by
  simp [applyClear, Bits.or, _WIFI_STA_GOT_IP,
    _WIFI_STA_DISCONNECT_STOP, _WIFI_STA_DISCONNECT_RESTORE]

@[simp] theorem applyClear_stop_handler_mask (s : WifiState) :
    applyClear s (Bits.or _WIFI_STA_STARTED
        (Bits.or _WIFI_STA_CONNECTED _WIFI_STA_GOT_IP)) =
      { s with staStarted := false, staConnected := false, staGotIp := false } := by
  simp [applyClear, Bits.or, _WIFI_STA_STARTED, _WIFI_STA_CONNECTED, _WIFI_STA_GOT_IP]

@[simp] theorem applyClear_enabled (s : WifiState) :
    applyClear s _WIFI_STA_ENABLED = { s with staEnabled := false } := by
  simp [applyClear, _WIFI_STA_ENABLED]

@[simp] theorem applyClear_lowlevel (s : WifiState) :
    applyClear s _WIFI_LOWLEVEL_INIT = { s with lowlevelInit := false } := by
  simp [applyClear, _WIFI_LOWLEVEL_INIT]

@[simp] theorem applyClear_discStop (s : WifiState) :
    applyClear s _WIFI_STA_DISCONNECT_STOP = { s with discStop := false } := by
  simp [applyClear, _WIFI_STA_DISCONNECT_STOP]

@[simp] theorem applyClear_discRestore (s : WifiState) :
    applyClear s _WIFI_STA_DISCONNECT_RESTORE = { s with discRestore := false } := by
  simp [applyClear, _WIFI_STA_DISCONNECT_RESTORE]

@[simp] theorem applySet_enabled_started (s : WifiState) :
    applySet s (Bits.or _WIFI_STA_ENABLED _WIFI_STA_STARTED) =
      { s with staEnabled := true, staStarted := true } := by
  simp [applySet, Bits.or, _WIFI_STA_ENABLED, _WIFI_STA_STARTED]

@[simp] theorem applySet_connected (s : WifiState) :
    applySet s _WIFI_STA_CONNECTED = { s with staConnected := true } := by
  simp [applySet, _WIFI_STA_CONNECTED]

@[simp] theorem applySet_gotIp (s : WifiState) :
    applySet s _WIFI_STA_GOT_IP = { s with staGotIp := true } := by
  simp [applySet, _WIFI_STA_GOT_IP]

@[simp] theorem applySet_discStop (s : WifiState) :
    applySet s _WIFI_STA_DISCONNECT_STOP = { s with discStop := true } := by
  simp [applySet, _WIFI_STA_DISCONNECT_STOP]

@[simp] theorem applySet_discRestore (s : WifiState) :
    applySet s _WIFI_STA_DISCONNECT_RESTORE = { s with discRestore := true } := by
  simp [applySet, _WIFI_STA_DISCONNECT_RESTORE]

@[simp] theorem applySet_enabled (s : WifiState) :
    applySet s _WIFI_STA_ENABLED = { s with staEnabled := true } := by
  simp [applySet, _WIFI_STA_ENABLED]

@[simp] theorem applySet_tcpip (s : WifiState) :
    applySet s _WIFI_TCPIP_INIT = { s with tcpipInit := true } := by
  simp [applySet, _WIFI_TCPIP_INIT]

@[simp] theorem applySet_lowlevel (s : WifiState) :
    applySet s _WIFI_LOWLEVEL_INIT = { s with lowlevelInit := true } := by
  simp [applySet, _WIFI_LOWLEVEL_INIT]
/-
Per-field frame lemmas for the pair-returning composites: each records that
the given function does not modify the given component of the state.
-/

@[simp] theorem stopMask_ne_zero : _WIFI_STA_DISCONNECT_STOP ≠ Bits.zero := by decide

@[simp] theorem restoreMask_ne_zero : _WIFI_STA_DISCONNECT_RESTORE ≠ Bits.zero := by decide

@[simp] theorem startSTA_hasStatusBits (s : WifiState) :
    ((_wifiStartSTA s).1).hasStatusBits = s.hasStatusBits := by
  simp [_wifiStartSTA, wifiTimeoutStart]

@[simp] theorem startSTA_tcpipInit (s : WifiState) :
    ((_wifiStartSTA s).1).tcpipInit = s.tcpipInit := by
  simp [_wifiStartSTA, wifiTimeoutStart]

@[simp] theorem startSTA_lowlevelInit (s : WifiState) :
    ((_wifiStartSTA s).1).lowlevelInit = s.lowlevelInit := by
  simp [_wifiStartSTA, wifiTimeoutStart]

@[simp] theorem startSTA_staEnabled (s : WifiState) :
    ((_wifiStartSTA s).1).staEnabled = s.staEnabled := by
  simp [_wifiStartSTA, wifiTimeoutStart]

@[simp] theorem startSTA_staStarted (s : WifiState) :
    ((_wifiStartSTA s).1).staStarted = s.staStarted := by
  simp [_wifiStartSTA, wifiTimeoutStart]

@[simp] theorem startSTA_staConnected (s : WifiState) :
    ((_wifiStartSTA s).1).staConnected = s.staConnected := by
  simp [_wifiStartSTA, wifiTimeoutStart]

@[simp] theorem startSTA_staGotIp (s : WifiState) :
    ((_wifiStartSTA s).1).staGotIp = s.staGotIp := by
  simp [_wifiStartSTA, wifiTimeoutStart]

@[simp] theorem startSTA_discStop (s : WifiState) :
    ((_wifiStartSTA s).1).discStop = s.discStop := by
  simp [_wifiStartSTA, wifiTimeoutStart]

@[simp] theorem startSTA_discRestore (s : WifiState) :
    ((_wifiStartSTA s).1).discRestore = s.discRestore := by
  simp [_wifiStartSTA, wifiTimeoutStart]

@[simp] theorem startSTA_attemptCount (s : WifiState) :
    ((_wifiStartSTA s).1).attemptCount = s.attemptCount := by
  simp [_wifiStartSTA, wifiTimeoutStart]

@[simp] theorem startSTA_lastErr (s : WifiState) :
    ((_wifiStartSTA s).1).lastErr = s.lastErr := by
  simp [_wifiStartSTA, wifiTimeoutStart]

@[simp] theorem startSTA_maxIndex (s : WifiState) :
    ((_wifiStartSTA s).1).maxIndex = s.maxIndex := by
  simp [_wifiStartSTA, wifiTimeoutStart]

@[simp] theorem startSTA_currIndex (s : WifiState) :
    ((_wifiStartSTA s).1).currIndex = s.currIndex := by
  simp [_wifiStartSTA, wifiTimeoutStart]

@[simp] theorem startSTA_nvsIndex (s : WifiState) :
    ((_wifiStartSTA s).1).nvsIndex = s.nvsIndex := by
  simp [_wifiStartSTA, wifiTimeoutStart]

@[simp] theorem startSTA_indexNeedChange (s : WifiState) :
    ((_wifiStartSTA s).1).indexNeedChange = s.indexNeedChange := by
  simp [_wifiStartSTA, wifiTimeoutStart]

@[simp] theorem startSTA_indexWasChanged (s : WifiState) :
    ((_wifiStartSTA s).1).indexWasChanged = s.indexWasChanged := by
  simp [_wifiStartSTA, wifiTimeoutStart]

@[simp] theorem stopSTA_hasStatusBits (s : WifiState) :
    ((_wifiStopSTA s).1).hasStatusBits = s.hasStatusBits := by
  simp [_wifiStopSTA]

@[simp] theorem stopSTA_tcpipInit (s : WifiState) :
    ((_wifiStopSTA s).1).tcpipInit = s.tcpipInit := by
  simp [_wifiStopSTA]

@[simp] theorem stopSTA_lowlevelInit (s : WifiState) :
    ((_wifiStopSTA s).1).lowlevelInit = s.lowlevelInit := by
  simp [_wifiStopSTA]

@[simp] theorem stopSTA_staEnabled (s : WifiState) :
    ((_wifiStopSTA s).1).staEnabled = s.staEnabled := by
  simp [_wifiStopSTA]

@[simp] theorem stopSTA_staStarted (s : WifiState) :
    ((_wifiStopSTA s).1).staStarted = s.staStarted := by
  simp [_wifiStopSTA]

@[simp] theorem stopSTA_staConnected (s : WifiState) :
    ((_wifiStopSTA s).1).staConnected = s.staConnected := by
  simp [_wifiStopSTA]

@[simp] theorem stopSTA_staGotIp (s : WifiState) :
    ((_wifiStopSTA s).1).staGotIp = s.staGotIp := by
  simp [_wifiStopSTA]

@[simp] theorem stopSTA_discStop (s : WifiState) :
    ((_wifiStopSTA s).1).discStop = s.discStop := by
  simp [_wifiStopSTA]

@[simp] theorem stopSTA_discRestore (s : WifiState) :
    ((_wifiStopSTA s).1).discRestore = s.discRestore := by
  simp [_wifiStopSTA]

@[simp] theorem stopSTA_attemptCount (s : WifiState) :
    ((_wifiStopSTA s).1).attemptCount = s.attemptCount := by
  simp [_wifiStopSTA]

@[simp] theorem stopSTA_lastErr (s : WifiState) :
    ((_wifiStopSTA s).1).lastErr = s.lastErr := by
  simp [_wifiStopSTA]

@[simp] theorem stopSTA_maxIndex (s : WifiState) :
    ((_wifiStopSTA s).1).maxIndex = s.maxIndex := by
  simp [_wifiStopSTA]

@[simp] theorem stopSTA_currIndex (s : WifiState) :
    ((_wifiStopSTA s).1).currIndex = s.currIndex := by
  simp [_wifiStopSTA]

@[simp] theorem stopSTA_nvsIndex (s : WifiState) :
    ((_wifiStopSTA s).1).nvsIndex = s.nvsIndex := by
  simp [_wifiStopSTA]

@[simp] theorem stopSTA_indexNeedChange (s : WifiState) :
    ((_wifiStopSTA s).1).indexNeedChange = s.indexNeedChange := by
  simp [_wifiStopSTA]

@[simp] theorem stopSTA_indexWasChanged (s : WifiState) :
    ((_wifiStopSTA s).1).indexWasChanged = s.indexWasChanged := by
  simp [_wifiStopSTA]

@[simp] theorem restoreSTA_hasStatusBits (s : WifiState) :
    ((_wifiRestoreSTA s).1).hasStatusBits = s.hasStatusBits := by
  simp [_wifiRestoreSTA, wifiTimeoutStart]

@[simp] theorem restoreSTA_tcpipInit (s : WifiState) :
    ((_wifiRestoreSTA s).1).tcpipInit = s.tcpipInit := by
  simp [_wifiRestoreSTA, wifiTimeoutStart]

@[simp] theorem restoreSTA_lowlevelInit (s : WifiState) :
    ((_wifiRestoreSTA s).1).lowlevelInit = s.lowlevelInit := by
  simp [_wifiRestoreSTA, wifiTimeoutStart]

@[simp] theorem restoreSTA_staEnabled (s : WifiState) :
    ((_wifiRestoreSTA s).1).staEnabled = s.staEnabled := by
  simp [_wifiRestoreSTA, wifiTimeoutStart]

@[simp] theorem restoreSTA_staStarted (s : WifiState) :
    ((_wifiRestoreSTA s).1).staStarted = s.staStarted := by
  simp [_wifiRestoreSTA, wifiTimeoutStart]

@[simp] theorem restoreSTA_staConnected (s : WifiState) :
    ((_wifiRestoreSTA s).1).staConnected = s.staConnected := by
  simp [_wifiRestoreSTA, wifiTimeoutStart]

@[simp] theorem restoreSTA_staGotIp (s : WifiState) :
    ((_wifiRestoreSTA s).1).staGotIp = s.staGotIp := by
  simp [_wifiRestoreSTA, wifiTimeoutStart]

@[simp] theorem restoreSTA_discStop (s : WifiState) :
    ((_wifiRestoreSTA s).1).discStop = s.discStop := by
  simp [_wifiRestoreSTA, wifiTimeoutStart]

@[simp] theorem restoreSTA_discRestore (s : WifiState) :
    ((_wifiRestoreSTA s).1).discRestore = s.discRestore := by
  simp [_wifiRestoreSTA, wifiTimeoutStart]

@[simp] theorem restoreSTA_attemptCount (s : WifiState) :
    ((_wifiRestoreSTA s).1).attemptCount = s.attemptCount := by
  simp [_wifiRestoreSTA, wifiTimeoutStart]

@[simp] theorem restoreSTA_lastErr (s : WifiState) :
    ((_wifiRestoreSTA s).1).lastErr = s.lastErr := by
  simp [_wifiRestoreSTA, wifiTimeoutStart]

@[simp] theorem restoreSTA_maxIndex (s : WifiState) :
    ((_wifiRestoreSTA s).1).maxIndex = s.maxIndex := by
  simp [_wifiRestoreSTA, wifiTimeoutStart]

@[simp] theorem restoreSTA_currIndex (s : WifiState) :
    ((_wifiRestoreSTA s).1).currIndex = s.currIndex := by
  simp [_wifiRestoreSTA, wifiTimeoutStart]

@[simp] theorem restoreSTA_nvsIndex (s : WifiState) :
    ((_wifiRestoreSTA s).1).nvsIndex = s.nvsIndex := by
  simp [_wifiRestoreSTA, wifiTimeoutStart]

@[simp] theorem restoreSTA_indexNeedChange (s : WifiState) :
    ((_wifiRestoreSTA s).1).indexNeedChange = s.indexNeedChange := by
  simp [_wifiRestoreSTA, wifiTimeoutStart]

@[simp] theorem restoreSTA_indexWasChanged (s : WifiState) :
    ((_wifiRestoreSTA s).1).indexWasChanged = s.indexWasChanged := by
  simp [_wifiRestoreSTA, wifiTimeoutStart]

@[simp] theorem startWiFi_hasStatusBits (s : WifiState) :
    ((wifiStartWiFi s).1).hasStatusBits = s.hasStatusBits := by
  simp [wifiStartWiFi]

@[simp] theorem startWiFi_tcpipInit (s : WifiState) :
    ((wifiStartWiFi s).1).tcpipInit = s.tcpipInit := by
  simp [wifiStartWiFi]

@[simp] theorem startWiFi_lowlevelInit (s : WifiState) :
    ((wifiStartWiFi s).1).lowlevelInit = s.lowlevelInit := by
  simp [wifiStartWiFi]

@[simp] theorem startWiFi_staEnabled (s : WifiState) :
    ((wifiStartWiFi s).1).staEnabled = s.staEnabled := by
  simp [wifiStartWiFi]

@[simp] theorem startWiFi_staStarted (s : WifiState) :
    ((wifiStartWiFi s).1).staStarted = s.staStarted := by
  simp [wifiStartWiFi]

@[simp] theorem startWiFi_staConnected (s : WifiState) :
    ((wifiStartWiFi s).1).staConnected = s.staConnected := by
  simp [wifiStartWiFi]

@[simp] theorem startWiFi_staGotIp (s : WifiState) :
    ((wifiStartWiFi s).1).staGotIp = s.staGotIp := by
  simp [wifiStartWiFi]

@[simp] theorem startWiFi_discStop (s : WifiState) :
    ((wifiStartWiFi s).1).discStop = s.discStop := by
  simp [wifiStartWiFi]

@[simp] theorem startWiFi_discRestore (s : WifiState) :
    ((wifiStartWiFi s).1).discRestore = s.discRestore := by
  simp [wifiStartWiFi]

@[simp] theorem startWiFi_attemptCount (s : WifiState) :
    ((wifiStartWiFi s).1).attemptCount = s.attemptCount := by
  simp [wifiStartWiFi]

@[simp] theorem startWiFi_lastErr (s : WifiState) :
    ((wifiStartWiFi s).1).lastErr = s.lastErr := by
  simp [wifiStartWiFi]

@[simp] theorem startWiFi_maxIndex (s : WifiState) :
    ((wifiStartWiFi s).1).maxIndex = s.maxIndex := by
  simp [wifiStartWiFi]

@[simp] theorem startWiFi_currIndex (s : WifiState) :
    ((wifiStartWiFi s).1).currIndex = s.currIndex := by
  simp [wifiStartWiFi]

@[simp] theorem startWiFi_nvsIndex (s : WifiState) :
    ((wifiStartWiFi s).1).nvsIndex = s.nvsIndex := by
  simp [wifiStartWiFi]

@[simp] theorem startWiFi_indexNeedChange (s : WifiState) :
    ((wifiStartWiFi s).1).indexNeedChange = s.indexNeedChange := by
  simp [wifiStartWiFi]

@[simp] theorem startWiFi_indexWasChanged (s : WifiState) :
    ((wifiStartWiFi s).1).indexWasChanged = s.indexWasChanged := by
  simp [wifiStartWiFi]

@[simp] theorem stopWiFi_hasStatusBits (s : WifiState) :
    ((wifiStopWiFi s).1).hasStatusBits = s.hasStatusBits := by
  simp [wifiStopWiFi, _wifiDisconnectSTA, _wifiStopSTA, wifiTimeoutStart]

@[simp] theorem stopWiFi_tcpipInit (s : WifiState) :
    ((wifiStopWiFi s).1).tcpipInit = s.tcpipInit := by
  simp [wifiStopWiFi, _wifiDisconnectSTA, _wifiStopSTA, wifiTimeoutStart]

@[simp] theorem stopWiFi_lowlevelInit (s : WifiState) :
    ((wifiStopWiFi s).1).lowlevelInit = s.lowlevelInit := by
  simp [wifiStopWiFi, _wifiDisconnectSTA, _wifiStopSTA, wifiTimeoutStart]

@[simp] theorem stopWiFi_staEnabled (s : WifiState) :
    ((wifiStopWiFi s).1).staEnabled = s.staEnabled := by
  simp [wifiStopWiFi, _wifiDisconnectSTA, _wifiStopSTA, wifiTimeoutStart]

@[simp] theorem stopWiFi_staStarted (s : WifiState) :
    ((wifiStopWiFi s).1).staStarted = s.staStarted := by
  simp [wifiStopWiFi, _wifiDisconnectSTA, _wifiStopSTA, wifiTimeoutStart]

@[simp] theorem stopWiFi_staConnected (s : WifiState) :
    ((wifiStopWiFi s).1).staConnected = s.staConnected := by
  simp [wifiStopWiFi, _wifiDisconnectSTA, _wifiStopSTA, wifiTimeoutStart]

@[simp] theorem stopWiFi_staGotIp (s : WifiState) :
    ((wifiStopWiFi s).1).staGotIp = s.staGotIp := by
  simp [wifiStopWiFi, _wifiDisconnectSTA, _wifiStopSTA, wifiTimeoutStart]

@[simp] theorem stopWiFi_discRestore (s : WifiState) :
    ((wifiStopWiFi s).1).discRestore = s.discRestore := by
  simp [wifiStopWiFi, _wifiDisconnectSTA, _wifiStopSTA, wifiTimeoutStart]

@[simp] theorem stopWiFi_attemptCount (s : WifiState) :
    ((wifiStopWiFi s).1).attemptCount = s.attemptCount := by
  simp [wifiStopWiFi, _wifiDisconnectSTA, _wifiStopSTA, wifiTimeoutStart]

@[simp] theorem stopWiFi_lastErr (s : WifiState) :
    ((wifiStopWiFi s).1).lastErr = s.lastErr := by
  simp [wifiStopWiFi, _wifiDisconnectSTA, _wifiStopSTA, wifiTimeoutStart]

@[simp] theorem stopWiFi_maxIndex (s : WifiState) :
    ((wifiStopWiFi s).1).maxIndex = s.maxIndex := by
  simp [wifiStopWiFi, _wifiDisconnectSTA, _wifiStopSTA, wifiTimeoutStart]

@[simp] theorem stopWiFi_currIndex (s : WifiState) :
    ((wifiStopWiFi s).1).currIndex = s.currIndex := by
  simp [wifiStopWiFi, _wifiDisconnectSTA, _wifiStopSTA, wifiTimeoutStart]

@[simp] theorem stopWiFi_nvsIndex (s : WifiState) :
    ((wifiStopWiFi s).1).nvsIndex = s.nvsIndex := by
  simp [wifiStopWiFi, _wifiDisconnectSTA, _wifiStopSTA, wifiTimeoutStart]

@[simp] theorem stopWiFi_indexNeedChange (s : WifiState) :
    ((wifiStopWiFi s).1).indexNeedChange = s.indexNeedChange := by
  simp [wifiStopWiFi, _wifiDisconnectSTA, _wifiStopSTA, wifiTimeoutStart]

@[simp] theorem stopWiFi_indexWasChanged (s : WifiState) :
    ((wifiStopWiFi s).1).indexWasChanged = s.indexWasChanged := by
  simp [wifiStopWiFi, _wifiDisconnectSTA, _wifiStopSTA, wifiTimeoutStart]

@[simp] theorem stopWiFi_discStop (s : WifiState) :
    ((wifiStopWiFi s).1).discStop = (s.discStop || (s.hasStatusBits && s.staConnected)) := by
  simp [wifiStopWiFi, _wifiDisconnectSTA, _wifiStopSTA, wifiTimeoutStart]
  by_cases hb : s.hasStatusBits <;> by_cases hc : s.staConnected <;> simp [hb, hc]

@[simp] theorem restartWiFi_hasStatusBits (s : WifiState) :
    ((wifiRestartWiFi s).1).hasStatusBits = s.hasStatusBits := by
  simp [wifiRestartWiFi, _wifiDisconnectSTA, _wifiStopSTA, _wifiStartSTA, wifiTimeoutStart]

@[simp] theorem restartWiFi_tcpipInit (s : WifiState) :
    ((wifiRestartWiFi s).1).tcpipInit = s.tcpipInit := by
  simp [wifiRestartWiFi, _wifiDisconnectSTA, _wifiStopSTA, _wifiStartSTA, wifiTimeoutStart]

@[simp] theorem restartWiFi_lowlevelInit (s : WifiState) :
    ((wifiRestartWiFi s).1).lowlevelInit = s.lowlevelInit := by
  simp [wifiRestartWiFi, _wifiDisconnectSTA, _wifiStopSTA, _wifiStartSTA, wifiTimeoutStart]

@[simp] theorem restartWiFi_staEnabled (s : WifiState) :
    ((wifiRestartWiFi s).1).staEnabled = s.staEnabled := by
  simp [wifiRestartWiFi, _wifiDisconnectSTA, _wifiStopSTA, _wifiStartSTA, wifiTimeoutStart]

@[simp] theorem restartWiFi_staStarted (s : WifiState) :
    ((wifiRestartWiFi s).1).staStarted = s.staStarted := by
  simp [wifiRestartWiFi, _wifiDisconnectSTA, _wifiStopSTA, _wifiStartSTA, wifiTimeoutStart]

@[simp] theorem restartWiFi_staConnected (s : WifiState) :
    ((wifiRestartWiFi s).1).staConnected = s.staConnected := by
  simp [wifiRestartWiFi, _wifiDisconnectSTA, _wifiStopSTA, _wifiStartSTA, wifiTimeoutStart]

@[simp] theorem restartWiFi_staGotIp (s : WifiState) :
    ((wifiRestartWiFi s).1).staGotIp = s.staGotIp := by
  simp [wifiRestartWiFi, _wifiDisconnectSTA, _wifiStopSTA, _wifiStartSTA, wifiTimeoutStart]

@[simp] theorem restartWiFi_discStop (s : WifiState) :
    ((wifiRestartWiFi s).1).discStop = s.discStop := by
  simp [wifiRestartWiFi, _wifiDisconnectSTA, _wifiStopSTA, _wifiStartSTA, wifiTimeoutStart]

@[simp] theorem restartWiFi_attemptCount (s : WifiState) :
    ((wifiRestartWiFi s).1).attemptCount = s.attemptCount := by
  simp [wifiRestartWiFi, _wifiDisconnectSTA, _wifiStopSTA, _wifiStartSTA, wifiTimeoutStart]

@[simp] theorem restartWiFi_lastErr (s : WifiState) :
    ((wifiRestartWiFi s).1).lastErr = s.lastErr := by
  simp [wifiRestartWiFi, _wifiDisconnectSTA, _wifiStopSTA, _wifiStartSTA, wifiTimeoutStart]

@[simp] theorem restartWiFi_maxIndex (s : WifiState) :
    ((wifiRestartWiFi s).1).maxIndex = s.maxIndex := by
  simp [wifiRestartWiFi, _wifiDisconnectSTA, _wifiStopSTA, _wifiStartSTA, wifiTimeoutStart]

@[simp] theorem restartWiFi_currIndex (s : WifiState) :
    ((wifiRestartWiFi s).1).currIndex = s.currIndex := by
  simp [wifiRestartWiFi, _wifiDisconnectSTA, _wifiStopSTA, _wifiStartSTA, wifiTimeoutStart]

@[simp] theorem restartWiFi_nvsIndex (s : WifiState) :
    ((wifiRestartWiFi s).1).nvsIndex = s.nvsIndex := by
  simp [wifiRestartWiFi, _wifiDisconnectSTA, _wifiStopSTA, _wifiStartSTA, wifiTimeoutStart]

@[simp] theorem restartWiFi_indexNeedChange (s : WifiState) :
    ((wifiRestartWiFi s).1).indexNeedChange = s.indexNeedChange := by
  simp [wifiRestartWiFi, _wifiDisconnectSTA, _wifiStopSTA, _wifiStartSTA, wifiTimeoutStart]

@[simp] theorem restartWiFi_indexWasChanged (s : WifiState) :
    ((wifiRestartWiFi s).1).indexWasChanged = s.indexWasChanged := by
  simp [wifiRestartWiFi, _wifiDisconnectSTA, _wifiStopSTA, _wifiStartSTA, wifiTimeoutStart]

@[simp] theorem restartWiFi_discRestore (s : WifiState) :
    ((wifiRestartWiFi s).1).discRestore = (s.discRestore || (s.hasStatusBits && s.staConnected)) := by
  simp [wifiRestartWiFi, _wifiDisconnectSTA, _wifiStopSTA, _wifiStartSTA, wifiTimeoutStart]
  by_cases hb : s.hasStatusBits <;> by_cases hc : s.staConnected <;> simp [hb, hc]

@[simp] theorem connectSTA_hasStatusBits (cfg : WifiConfig) (s : WifiState) :
    ((wifiConnectSTA cfg s).1).hasStatusBits = s.hasStatusBits := by
  simp [wifiConnectSTA, wifiTimeoutStart]

@[simp] theorem connectSTA_tcpipInit (cfg : WifiConfig) (s : WifiState) :
    ((wifiConnectSTA cfg s).1).tcpipInit = s.tcpipInit := by
  simp [wifiConnectSTA, wifiTimeoutStart]

@[simp] theorem connectSTA_lowlevelInit (cfg : WifiConfig) (s : WifiState) :
    ((wifiConnectSTA cfg s).1).lowlevelInit = s.lowlevelInit := by
  simp [wifiConnectSTA, wifiTimeoutStart]

@[simp] theorem connectSTA_staEnabled (cfg : WifiConfig) (s : WifiState) :
    ((wifiConnectSTA cfg s).1).staEnabled = s.staEnabled := by
  simp [wifiConnectSTA, wifiTimeoutStart]

@[simp] theorem connectSTA_staStarted (cfg : WifiConfig) (s : WifiState) :
    ((wifiConnectSTA cfg s).1).staStarted = s.staStarted := by
  simp [wifiConnectSTA, wifiTimeoutStart]

@[simp] theorem connectSTA_staConnected (cfg : WifiConfig) (s : WifiState) :
    ((wifiConnectSTA cfg s).1).staConnected = s.staConnected := by
  simp [wifiConnectSTA, wifiTimeoutStart]

@[simp] theorem connectSTA_staGotIp (cfg : WifiConfig) (s : WifiState) :
    ((wifiConnectSTA cfg s).1).staGotIp = s.staGotIp := by
  simp [wifiConnectSTA, wifiTimeoutStart]

@[simp] theorem connectSTA_discStop (cfg : WifiConfig) (s : WifiState) :
    ((wifiConnectSTA cfg s).1).discStop = s.discStop := by
  simp [wifiConnectSTA, wifiTimeoutStart]

@[simp] theorem connectSTA_discRestore (cfg : WifiConfig) (s : WifiState) :
    ((wifiConnectSTA cfg s).1).discRestore = s.discRestore := by
  simp [wifiConnectSTA, wifiTimeoutStart]

@[simp] theorem connectSTA_lastErr (cfg : WifiConfig) (s : WifiState) :
    ((wifiConnectSTA cfg s).1).lastErr = s.lastErr := by
  simp [wifiConnectSTA, wifiTimeoutStart]

@[simp] theorem connectSTA_nvsIndex (cfg : WifiConfig) (s : WifiState) :
    ((wifiConnectSTA cfg s).1).nvsIndex = s.nvsIndex := by
  simp [wifiConnectSTA, wifiTimeoutStart]
@[simp] theorem reconnect_hasStatusBits (cfg : WifiConfig) (s : WifiState) :
    ((wifiReconnectWiFi cfg s).1).hasStatusBits = s.hasStatusBits := by
  simp [wifiReconnectWiFi]

@[simp] theorem reconnect_tcpipInit (cfg : WifiConfig) (s : WifiState) :
    ((wifiReconnectWiFi cfg s).1).tcpipInit = s.tcpipInit := by
  simp [wifiReconnectWiFi]

@[simp] theorem reconnect_lowlevelInit (cfg : WifiConfig) (s : WifiState) :
    ((wifiReconnectWiFi cfg s).1).lowlevelInit = s.lowlevelInit := by
  simp [wifiReconnectWiFi]

@[simp] theorem reconnect_staEnabled (cfg : WifiConfig) (s : WifiState) :
    ((wifiReconnectWiFi cfg s).1).staEnabled = s.staEnabled := by
  simp [wifiReconnectWiFi]

@[simp] theorem reconnect_staStarted (cfg : WifiConfig) (s : WifiState) :
    ((wifiReconnectWiFi cfg s).1).staStarted = s.staStarted := by
  simp [wifiReconnectWiFi]

@[simp] theorem reconnect_staConnected (cfg : WifiConfig) (s : WifiState) :
    ((wifiReconnectWiFi cfg s).1).staConnected = s.staConnected := by
  simp [wifiReconnectWiFi]

@[simp] theorem reconnect_staGotIp (cfg : WifiConfig) (s : WifiState) :
    ((wifiReconnectWiFi cfg s).1).staGotIp = s.staGotIp := by
  simp [wifiReconnectWiFi]

@[simp] theorem reconnect_lastErr (cfg : WifiConfig) (s : WifiState) :
    ((wifiReconnectWiFi cfg s).1).lastErr = s.lastErr := by
  simp [wifiReconnectWiFi]

@[simp] theorem reconnect_nvsIndex (cfg : WifiConfig) (s : WifiState) :
    ((wifiReconnectWiFi cfg s).1).nvsIndex = s.nvsIndex := by
  simp [wifiReconnectWiFi]

@[simp] theorem reconnectOrDie_hasStatusBits (cfg : WifiConfig) (s : WifiState) :
    (wifiReconnectOrDie cfg s).hasStatusBits = s.hasStatusBits := by
  simp [wifiReconnectOrDie]

@[simp] theorem reconnectOrDie_tcpipInit (cfg : WifiConfig) (s : WifiState) :
    (wifiReconnectOrDie cfg s).tcpipInit = s.tcpipInit := by
  simp [wifiReconnectOrDie]

@[simp] theorem reconnectOrDie_lowlevelInit (cfg : WifiConfig) (s : WifiState) :
    (wifiReconnectOrDie cfg s).lowlevelInit = s.lowlevelInit := by
  simp [wifiReconnectOrDie]

@[simp] theorem reconnectOrDie_staEnabled (cfg : WifiConfig) (s : WifiState) :
    (wifiReconnectOrDie cfg s).staEnabled = s.staEnabled := by
  simp [wifiReconnectOrDie]

@[simp] theorem reconnectOrDie_staStarted (cfg : WifiConfig) (s : WifiState) :
    (wifiReconnectOrDie cfg s).staStarted = s.staStarted := by
  simp [wifiReconnectOrDie]

@[simp] theorem reconnectOrDie_staConnected (cfg : WifiConfig) (s : WifiState) :
    (wifiReconnectOrDie cfg s).staConnected = s.staConnected := by
  simp [wifiReconnectOrDie]

@[simp] theorem reconnectOrDie_staGotIp (cfg : WifiConfig) (s : WifiState) :
    (wifiReconnectOrDie cfg s).staGotIp = s.staGotIp := by
  simp [wifiReconnectOrDie]

@[simp] theorem reconnectOrDie_lastErr (cfg : WifiConfig) (s : WifiState) :
    (wifiReconnectOrDie cfg s).lastErr = s.lastErr := by
  simp [wifiReconnectOrDie]

@[simp] theorem reconnectOrDie_nvsIndex (cfg : WifiConfig) (s : WifiState) :
    (wifiReconnectOrDie cfg s).nvsIndex = s.nvsIndex := by
  simp [wifiReconnectOrDie]

@[simp] theorem timeoutEnd_hasStatusBits (cfg : WifiConfig) (s : WifiState) :
    (wifiTimeoutEnd cfg s).hasStatusBits = s.hasStatusBits := by
  simp [wifiTimeoutEnd]

@[simp] theorem timeoutEnd_tcpipInit (cfg : WifiConfig) (s : WifiState) :
    (wifiTimeoutEnd cfg s).tcpipInit = s.tcpipInit := by
  simp [wifiTimeoutEnd]

@[simp] theorem timeoutEnd_lowlevelInit (cfg : WifiConfig) (s : WifiState) :
    (wifiTimeoutEnd cfg s).lowlevelInit = s.lowlevelInit := by
  simp [wifiTimeoutEnd]

@[simp] theorem timeoutEnd_staEnabled (cfg : WifiConfig) (s : WifiState) :
    (wifiTimeoutEnd cfg s).staEnabled = s.staEnabled := by
  simp [wifiTimeoutEnd]

@[simp] theorem timeoutEnd_staStarted (cfg : WifiConfig) (s : WifiState) :
    (wifiTimeoutEnd cfg s).staStarted = s.staStarted := by
  simp [wifiTimeoutEnd]

@[simp] theorem timeoutEnd_staConnected (cfg : WifiConfig) (s : WifiState) :
    (wifiTimeoutEnd cfg s).staConnected = s.staConnected := by
  simp [wifiTimeoutEnd]

@[simp] theorem timeoutEnd_staGotIp (cfg : WifiConfig) (s : WifiState) :
    (wifiTimeoutEnd cfg s).staGotIp = s.staGotIp := by
  simp [wifiTimeoutEnd]

@[simp] theorem timeoutEnd_lastErr (cfg : WifiConfig) (s : WifiState) :
    (wifiTimeoutEnd cfg s).lastErr = s.lastErr := by
  simp [wifiTimeoutEnd]

@[simp] theorem timeoutEnd_nvsIndex (cfg : WifiConfig) (s : WifiState) :
    (wifiTimeoutEnd cfg s).nvsIndex = s.nvsIndex := by
  simp [wifiTimeoutEnd]

@[simp] theorem lowLevelInit_hasStatusBits (s : WifiState) :
    ((wifiLowLevelInit s).1).hasStatusBits = s.hasStatusBits := by
  simp [wifiLowLevelInit, wifiTcpIpInit, eventLoopPost]

@[simp] theorem lowLevelInit_staEnabled (s : WifiState) :
    ((wifiLowLevelInit s).1).staEnabled = s.staEnabled := by
  simp [wifiLowLevelInit, wifiTcpIpInit, eventLoopPost]

@[simp] theorem lowLevelInit_staStarted (s : WifiState) :
    ((wifiLowLevelInit s).1).staStarted = s.staStarted := by
  simp [wifiLowLevelInit, wifiTcpIpInit, eventLoopPost]

@[simp] theorem lowLevelInit_staConnected (s : WifiState) :
    ((wifiLowLevelInit s).1).staConnected = s.staConnected := by
  simp [wifiLowLevelInit, wifiTcpIpInit, eventLoopPost]

@[simp] theorem lowLevelInit_staGotIp (s : WifiState) :
    ((wifiLowLevelInit s).1).staGotIp = s.staGotIp := by
  simp [wifiLowLevelInit, wifiTcpIpInit, eventLoopPost]

@[simp] theorem lowLevelInit_discStop (s : WifiState) :
    ((wifiLowLevelInit s).1).discStop = s.discStop := by
  simp [wifiLowLevelInit, wifiTcpIpInit, eventLoopPost]

@[simp] theorem lowLevelInit_discRestore (s : WifiState) :
    ((wifiLowLevelInit s).1).discRestore = s.discRestore := by
  simp [wifiLowLevelInit, wifiTcpIpInit, eventLoopPost]

@[simp] theorem lowLevelInit_attemptCount (s : WifiState) :
    ((wifiLowLevelInit s).1).attemptCount = s.attemptCount := by
  simp [wifiLowLevelInit, wifiTcpIpInit, eventLoopPost]

@[simp] theorem lowLevelInit_lastErr (s : WifiState) :
    ((wifiLowLevelInit s).1).lastErr = s.lastErr := by
  simp [wifiLowLevelInit, wifiTcpIpInit, eventLoopPost]

@[simp] theorem lowLevelInit_maxIndex (s : WifiState) :
    ((wifiLowLevelInit s).1).maxIndex = s.maxIndex := by
  simp [wifiLowLevelInit, wifiTcpIpInit, eventLoopPost]

@[simp] theorem lowLevelInit_currIndex (s : WifiState) :
    ((wifiLowLevelInit s).1).currIndex = s.currIndex := by
  simp [wifiLowLevelInit, wifiTcpIpInit, eventLoopPost]

@[simp] theorem lowLevelInit_nvsIndex (s : WifiState) :
    ((wifiLowLevelInit s).1).nvsIndex = s.nvsIndex := by
  simp [wifiLowLevelInit, wifiTcpIpInit, eventLoopPost]

@[simp] theorem lowLevelInit_indexNeedChange (s : WifiState) :
    ((wifiLowLevelInit s).1).indexNeedChange = s.indexNeedChange := by
  simp [wifiLowLevelInit, wifiTcpIpInit, eventLoopPost]

@[simp] theorem lowLevelInit_indexWasChanged (s : WifiState) :
    ((wifiLowLevelInit s).1).indexWasChanged = s.indexWasChanged := by
  simp [wifiLowLevelInit, wifiTcpIpInit, eventLoopPost]

@[simp] theorem lowLevelDeinit_hasStatusBits (s : WifiState) :
    ((wifiLowLevelDeinit s).1).hasStatusBits = s.hasStatusBits := by
  simp [wifiLowLevelDeinit]

@[simp] theorem lowLevelDeinit_tcpipInit (s : WifiState) :
    ((wifiLowLevelDeinit s).1).tcpipInit = s.tcpipInit := by
  simp [wifiLowLevelDeinit]

@[simp] theorem lowLevelDeinit_staEnabled (s : WifiState) :
    ((wifiLowLevelDeinit s).1).staEnabled = s.staEnabled := by
  simp [wifiLowLevelDeinit]

@[simp] theorem lowLevelDeinit_staStarted (s : WifiState) :
    ((wifiLowLevelDeinit s).1).staStarted = s.staStarted := by
  simp [wifiLowLevelDeinit]

@[simp] theorem lowLevelDeinit_staConnected (s : WifiState) :
    ((wifiLowLevelDeinit s).1).staConnected = s.staConnected := by
  simp [wifiLowLevelDeinit]

@[simp] theorem lowLevelDeinit_staGotIp (s : WifiState) :
    ((wifiLowLevelDeinit s).1).staGotIp = s.staGotIp := by
  simp [wifiLowLevelDeinit]

@[simp] theorem lowLevelDeinit_discStop (s : WifiState) :
    ((wifiLowLevelDeinit s).1).discStop = s.discStop := by
  simp [wifiLowLevelDeinit]

@[simp] theorem lowLevelDeinit_discRestore (s : WifiState) :
    ((wifiLowLevelDeinit s).1).discRestore = s.discRestore := by
  simp [wifiLowLevelDeinit]

@[simp] theorem lowLevelDeinit_attemptCount (s : WifiState) :
    ((wifiLowLevelDeinit s).1).attemptCount = s.attemptCount := by
  simp [wifiLowLevelDeinit]

@[simp] theorem lowLevelDeinit_lastErr (s : WifiState) :
    ((wifiLowLevelDeinit s).1).lastErr = s.lastErr := by
  simp [wifiLowLevelDeinit]

@[simp] theorem lowLevelDeinit_maxIndex (s : WifiState) :
    ((wifiLowLevelDeinit s).1).maxIndex = s.maxIndex := by
  simp [wifiLowLevelDeinit]

@[simp] theorem lowLevelDeinit_currIndex (s : WifiState) :
    ((wifiLowLevelDeinit s).1).currIndex = s.currIndex := by
  simp [wifiLowLevelDeinit]

@[simp] theorem lowLevelDeinit_nvsIndex (s : WifiState) :
    ((wifiLowLevelDeinit s).1).nvsIndex = s.nvsIndex := by
  simp [wifiLowLevelDeinit]

@[simp] theorem lowLevelDeinit_indexNeedChange (s : WifiState) :
    ((wifiLowLevelDeinit s).1).indexNeedChange = s.indexNeedChange := by
  simp [wifiLowLevelDeinit]

@[simp] theorem lowLevelDeinit_indexWasChanged (s : WifiState) :
    ((wifiLowLevelDeinit s).1).indexWasChanged = s.indexWasChanged := by
  simp [wifiLowLevelDeinit]

@[simp] theorem wifiStop_hasStatusBits (s : WifiState) :
    ((wifiStop s).1).hasStatusBits = s.hasStatusBits := by
  simp [wifiStop, notifs_stopWiFi]

@[simp] theorem wifiStop_tcpipInit (s : WifiState) :
    ((wifiStop s).1).tcpipInit = s.tcpipInit := by
  simp [wifiStop, notifs_stopWiFi]

@[simp] theorem wifiStop_lowlevelInit (s : WifiState) :
    ((wifiStop s).1).lowlevelInit = s.lowlevelInit := by
  simp [wifiStop, notifs_stopWiFi]

@[simp] theorem wifiStop_staStarted (s : WifiState) :
    ((wifiStop s).1).staStarted = s.staStarted := by
  simp [wifiStop, notifs_stopWiFi]

@[simp] theorem wifiStop_staConnected (s : WifiState) :
    ((wifiStop s).1).staConnected = s.staConnected := by
  simp [wifiStop, notifs_stopWiFi]

@[simp] theorem wifiStop_staGotIp (s : WifiState) :
    ((wifiStop s).1).staGotIp = s.staGotIp := by
  simp [wifiStop, notifs_stopWiFi]

@[simp] theorem wifiStop_discRestore (s : WifiState) :
    ((wifiStop s).1).discRestore = s.discRestore := by
  simp [wifiStop, notifs_stopWiFi]

@[simp] theorem wifiStop_attemptCount (s : WifiState) :
    ((wifiStop s).1).attemptCount = s.attemptCount := by
  simp [wifiStop, notifs_stopWiFi]

@[simp] theorem wifiStop_lastErr (s : WifiState) :
    ((wifiStop s).1).lastErr = s.lastErr := by
  simp [wifiStop, notifs_stopWiFi]

@[simp] theorem wifiStop_maxIndex (s : WifiState) :
    ((wifiStop s).1).maxIndex = s.maxIndex := by
  simp [wifiStop, notifs_stopWiFi]

@[simp] theorem wifiStop_currIndex (s : WifiState) :
    ((wifiStop s).1).currIndex = s.currIndex := by
  simp [wifiStop, notifs_stopWiFi]

@[simp] theorem wifiStop_nvsIndex (s : WifiState) :
    ((wifiStop s).1).nvsIndex = s.nvsIndex := by
  simp [wifiStop, notifs_stopWiFi]

@[simp] theorem wifiStop_indexNeedChange (s : WifiState) :
    ((wifiStop s).1).indexNeedChange = s.indexNeedChange := by
  simp [wifiStop, notifs_stopWiFi]

@[simp] theorem wifiStop_indexWasChanged (s : WifiState) :
    ((wifiStop s).1).indexWasChanged = s.indexWasChanged := by
  simp [wifiStop, notifs_stopWiFi]

@[simp] theorem wifiStop_notifs (s : WifiState) :
    ((wifiStop s).1).notifs = s.notifs := by
  simp [wifiStop, notifs_stopWiFi]

@[simp] theorem wifiStop_staEnabled (s : WifiState) :
    ((wifiStop s).1).staEnabled = (s.staEnabled && !s.hasStatusBits) := by
  by_cases hb : s.hasStatusBits <;> simp [wifiStop, hb]

@[simp] theorem wifiStop_discStop (s : WifiState) :
    ((wifiStop s).1).discStop = (s.discStop || (s.hasStatusBits && s.staConnected)) := by
  by_cases hb : s.hasStatusBits <;> simp [wifiStop, hb]

/-
Shared concrete states and configuration used by the scenario theorems.
-/

/-- The scenario configuration of the testable properties in the design
document: three configured profiles, reconnect threshold 3, restart
threshold 6. -/
def cfgStd : WifiConfig := ⟨3, 3, 6⟩

/-- A state in which the station is enabled and started but the link never
came up (Connected and GotIp both clear): one connect attempt in flight,
phase timer armed, persisted profile index 1, all-success driver oracle. -/
def sNeverUp : WifiState :=
  ⟨true, true, true, true, true, false, false, false, false,
   1, 0, 3, 1, some 1, false, false, true, true, [], [], []⟩

/-- The fully-up variant of sNeverUp: Connected and GotIp both set. -/
def sFullUp : WifiState :=
  { sNeverUp with staConnected := true, staGotIp := true, attemptCount := 0 }

/-- Claim C1, counterexample: a lost-ip event handled while the station is
enabled but the link never reached Connected+GotIp still posts the
RE_WIFI_STA_DISCONNECTED notification, refuting the claimed equivalence
between the notification and the snapshot having held both bits. -/
theorem c1_lostIp_counterexample :
    (wifiEventHandler_Disconnect cfgStd DiscEvent.lostIp sNeverUp).notifs =
      [Notif.staDisconnected] ∧
    ¬(sNeverUp.staConnected = true ∧ sNeverUp.staGotIp = true) := by
  decide

/-- Claim C1 (amended): while the station is enabled, the link-disconnected
and beacon-timeout branches of wifiEventHandler_Disconnect post
RE_WIFI_STA_DISCONNECTED exactly when the status snapshot taken before
clearing held both Connected and GotIp, while the lost-ip branch posts it
unconditionally; in every enabled branch — the never-up case included —
the handler then runs the escalation (wifiReconnectWiFi with the
restore-then-stop fallback): the resulting state is exactly
wifiReconnectOrDie applied to the intermediate state with Connected and
GotIp cleared, the timer stopped, the reason recorded and the
notification posted per the branch condition; while the station is
disabled no notification is posted and escalation is replaced by a plain
stop. -/
theorem c1_loss_notification (cfg : WifiConfig) (s : WifiState) (r : Nat) (hd : Bool)
    (hb : s.hasStatusBits = true) (he : s.staEnabled = true) (hn : s.notifs = []) :
    ((wifiEventHandler_Disconnect cfg (DiscEvent.disconnected r hd) s).notifs =
        if s.staConnected && s.staGotIp then [Notif.staDisconnected] else []) ∧
    ((wifiEventHandler_Disconnect cfg DiscEvent.beaconTimeout s).notifs =
        if s.staConnected && s.staGotIp then [Notif.staDisconnected] else []) ∧
    ((wifiEventHandler_Disconnect cfg DiscEvent.lostIp s).notifs =
        [Notif.staDisconnected]) ∧
    (wifiEventHandler_Disconnect cfg (DiscEvent.disconnected r hd) s =
      wifiReconnectOrDie cfg
        { s with staConnected := false, staGotIp := false,
                 timerActive := s.timerActive && !s.timerExists,
                 lastErr := if hd then r else WIFI_REASON_UNSPECIFIED,
                 notifs := if s.staConnected && s.staGotIp
                           then [Notif.staDisconnected] else [] }) ∧
    (wifiEventHandler_Disconnect cfg DiscEvent.beaconTimeout s =
      wifiReconnectOrDie cfg
        { s with staConnected := false, staGotIp := false,
                 timerActive := s.timerActive && !s.timerExists,
                 lastErr := WIFI_REASON_BEACON_TIMEOUT,
                 notifs := if s.staConnected && s.staGotIp
                           then [Notif.staDisconnected] else [] }) ∧
    (wifiEventHandler_Disconnect cfg DiscEvent.lostIp s =
      wifiReconnectOrDie cfg
        { s with staConnected := false, staGotIp := false,
                 timerActive := s.timerActive && !s.timerExists,
                 notifs := [Notif.staDisconnected] }) ∧
    (∀ (t : WifiState) (ev : DiscEvent), t.staEnabled = false → t.notifs = [] →
      (wifiEventHandler_Disconnect cfg ev t).notifs = []) := by
  refine ⟨?_, ?_, ?_, ?_, ?_, ?_, ?_⟩
  · simp [wifiEventHandler_Disconnect, hb, he, hn, notifs_reconnectOrDie, eventLoopPost]
  · simp [wifiEventHandler_Disconnect, hb, he, hn, notifs_reconnectOrDie, eventLoopPost]
  · simp [wifiEventHandler_Disconnect, hb, he, hn, notifs_reconnectOrDie, eventLoopPost]
  · by_cases hcg : s.staConnected && s.staGotIp <;>
      simp [wifiEventHandler_Disconnect, hb, he, hn, hcg, eventLoopPost]
  · by_cases hcg : s.staConnected && s.staGotIp <;>
      simp [wifiEventHandler_Disconnect, hb, he, hn, hcg, eventLoopPost]
  · simp [wifiEventHandler_Disconnect, hb, he, hn, eventLoopPost]
  · intro t ev ht htn
    cases ev <;> simp [wifiEventHandler_Disconnect, ht, htn, notifs_stopWiFi]

/-- Witness for C1 at the fully-up state: a link-disconnected event with
reason 4 posts the loss notification. -/
theorem c1_loss_notification_witness :
    (sFullUp.hasStatusBits = true ∧ sFullUp.staEnabled = true ∧ sFullUp.notifs = []) ∧
    (wifiEventHandler_Disconnect cfgStd (DiscEvent.disconnected 4 true) sFullUp).notifs =
      (if sFullUp.staConnected && sFullUp.staGotIp then [Notif.staDisconnected] else []) :=
  ⟨⟨rfl, rfl, rfl⟩, (c1_loss_notification cfgStd sFullUp 4 true rfl rfl rfl).1⟩

/-- Claim C4 (confirmed): the attempt counter is zero after the got-ip
handler, unchanged by the link-connected handler, the adapter-stopped
handler and wifiStop; within wifiConnectSTA it is incremented exactly once
— when the driver accepts the credential configuration — together with
exactly one driver connect request, the increment lands even when the
subsequent connect request is rejected (it precedes that request), and a
rejected configuration leaves the counter unchanged with no connect
request; the adapter-started handler resets the counter to zero before
initiating the single first attempt (so it ends at one when that attempt is
issued and at zero when the configuration is rejected); wifiStart itself
never touches the counter. -/
theorem c4_attempt_counter (cfg : WifiConfig) (s : WifiState) :
    (wifiEventHandler_GotIP s).attemptCount = 0 ∧
    (wifiEventHandler_Connect s).attemptCount = s.attemptCount ∧
    (wifiEventHandler_Stop s).attemptCount = s.attemptCount ∧
    ((wifiStop s).1).attemptCount = s.attemptCount ∧
    ((wifiStart s).1).attemptCount = s.attemptCount ∧
    ((wifiConnectSTA cfg { s with drvResults := [] }).1).attemptCount
      = s.attemptCount + 1 ∧
    ((wifiConnectSTA cfg { s with drvResults := [] }).1).calls.count DrvCall.connectW
      = s.calls.count DrvCall.connectW + 1 ∧
    ((wifiConnectSTA cfg { s with drvResults := [true, false] }).1).attemptCount
      = s.attemptCount + 1 ∧
    ((wifiConnectSTA cfg { s with drvResults := [false] }).1).attemptCount
      = s.attemptCount ∧
    ((wifiConnectSTA cfg { s with drvResults := [false] }).1).calls.count DrvCall.connectW
      = s.calls.count DrvCall.connectW ∧
    (wifiEventHandler_Start cfg { s with drvResults := [] }).attemptCount = 1 ∧
    (wifiEventHandler_Start cfg { s with drvResults := [false] }).attemptCount = 0 := by
  refine ⟨?_, ?_, ?_, ?_, ?_, ?_, ?_, ?_, ?_, ?_, ?_, ?_⟩
  · by_cases hb : s.hasStatusBits <;>
      simp [wifiEventHandler_GotIP, hb, eventLoopPost]
  · by_cases hb : s.hasStatusBits <;>
      simp [wifiEventHandler_Connect, hb, wifiTimeoutStart]
  · by_cases hb : s.hasStatusBits <;>
      simp [wifiEventHandler_Stop, hb, eventLoopPost]
  · simp
  · by_cases hb : s.hasStatusBits <;> simp [wifiStart, wifiInit, hb]
  · simp [wifiConnectSTA, wifiTimeoutStart]
  · simp [wifiConnectSTA, wifiTimeoutStart, List.count_append]
  · simp [wifiConnectSTA, wifiTimeoutStart]
  · simp [wifiConnectSTA, wifiTimeoutStart]
  · simp [wifiConnectSTA, wifiTimeoutStart]
  · by_cases hb : s.hasStatusBits <;>
      simp [wifiEventHandler_Start, hb, eventLoopPost, wifiConnectSTA, wifiTimeoutStart]
  · by_cases hb : s.hasStatusBits <;>
      simp [wifiEventHandler_Start, hb, eventLoopPost, wifiConnectSTA, wifiTimeoutStart]

/-- A started-but-not-connected state whose driver oracle rejects the next
(stop) request, so wifiStop reports failure. -/
def sStopRejected : WifiState :=
  { sNeverUp with drvResults := [false, true] }

/-- Claim C9 (confirmed): wifiStop always leaves the StaEnabled bit clear —
for every starting state, and in particular when it returns false because
the driver rejected the stop request — so automatic reconnection stays
suppressed and the state change is not rolled back on error. -/
theorem c9_stop_clears_enabled (s : WifiState) :
    wifiIsEnabled ((wifiStop s).1) = false ∧
    ((wifiStop sStopRejected).2 = false ∧
      wifiIsEnabled ((wifiStop sStopRejected).1) = false ∧
      sStopRejected.staEnabled = true) := by
  refine ⟨?_, by decide⟩
  simp [wifiIsEnabled]
  exact fun h _ => h

/-- Claim C6, counterexample: with a driver oracle that rejects the first
stop request but would accept a second one, wifiStop reports failure after
issuing exactly one driver stop request — there is no bounded-retry
polling loop around the stop (a single retry would have succeeded). -/
theorem c6_no_retry_counterexample :
    (wifiStop sStopRejected).2 = false ∧
    ((wifiStop sStopRejected).1).calls.count DrvCall.stopW = 1 ∧
    (drvCall ((wifiStop sStopRejected).1) DrvCall.stopW).2 = true := by
  decide

/-- Claim C6 (amended): wifiStop clears the StaEnabled bit (suppressing
auto-reconnect) and is idempotent on the observable status register; when
the link is connected it requests disconnect-then-stop by marking the
pending-stop stage and issuing one driver disconnect request; it issues at
most one driver stop request per call and reports a rejected stop as
failure immediately, without any retry polling. -/
theorem c6_stop_behaviour (s : WifiState) :
    wifiIsEnabled ((wifiStop s).1) = false ∧
    (((wifiStop ((wifiStop s).1)).1).hasStatusBits = ((wifiStop s).1).hasStatusBits ∧
      wifiStatusGet ((wifiStop ((wifiStop s).1)).1) = wifiStatusGet ((wifiStop s).1)) ∧
    (s.hasStatusBits = true → s.staConnected = true →
      ((wifiStop s).1).discStop = true ∧
      ((wifiStop s).1).calls.count DrvCall.disconnectW
        = s.calls.count DrvCall.disconnectW + 1) ∧
    ((wifiStop s).1).calls.count DrvCall.stopW ≤ s.calls.count DrvCall.stopW + 1 := by
  refine ⟨?_, ⟨by simp, ?_⟩, ?_, ?_⟩
  · simp [wifiIsEnabled]
    exact fun h _ => h
  · ext <;> cases hb : s.hasStatusBits <;> simp [hb]
  · intro hb hc
    constructor
    · simp [hb, hc]
    · simp [wifiStop, wifiStopWiFi, _wifiDisconnectSTA, _wifiStopSTA,
        wifiTimeoutStart, hb, hc, List.count_append]
  · by_cases hb : s.hasStatusBits <;>
      by_cases hc : s.staConnected <;>
      by_cases hst : s.staStarted <;>
      simp [wifiStop, wifiStopWiFi, _wifiDisconnectSTA, _wifiStopSTA,
        wifiTimeoutStart, hb, hc, hst, List.count_append]

/-- Witness for C6 at the fully-up state: the disconnect-then-stop request
conjunct applies because the link is connected there. -/
theorem c6_stop_behaviour_witness :
    ((wifiStop sFullUp).1).discStop = true ∧
    ((wifiStop sFullUp).1).calls.count DrvCall.disconnectW
      = sFullUp.calls.count DrvCall.disconnectW + 1 :=
  (c6_stop_behaviour sFullUp).2.2.1 rfl rfl

/-- The state of claim C7: multi-profile mode with maxIndex 3, current
index 1 and the need-change flag set. -/
def sWrap : WifiState := { sNeverUp with indexNeedChange := true }

/-- Claim C7 (confirmed): a connect attempt with the need-change flag set
advances the selector circularly within [1, maxIndex] — to currIndex+1, or
back to 1 from maxIndex — and three consecutive such attempts from index 1
with maxIndex 3 visit 2, 3, 1 in that order. -/
theorem c7_selector_wrap (cfg : WifiConfig) (s : WifiState)
    (hnc : s.indexNeedChange = true) (h0 : s.currIndex ≠ 0)
    (hhi : s.currIndex ≤ s.maxIndex) (hm : s.maxIndex ≤ 5) :
    (((wifiConnectSTA cfg s).1).currIndex
      = (if s.currIndex = s.maxIndex then 1 else s.currIndex + 1)) ∧
    (1 ≤ ((wifiConnectSTA cfg s).1).currIndex ∧
      ((wifiConnectSTA cfg s).1).currIndex ≤ s.maxIndex) ∧
    (((wifiConnectSTA cfgStd sWrap).1).currIndex = 2 ∧
     ((wifiConnectSTA cfgStd ((wifiConnectSTA cfgStd sWrap).1)).1).currIndex = 3 ∧
     ((wifiConnectSTA cfgStd
        ((wifiConnectSTA cfgStd ((wifiConnectSTA cfgStd sWrap).1)).1)).1).currIndex = 1) := by
  have h1 : 1 ≤ s.currIndex := Nat.one_le_iff_ne_zero.mpr h0
  refine ⟨?_, ?_, by decide⟩
  · simp [wifiConnectSTA, hnc, h0, wifiTimeoutStart]
    rw [Nat.mod_eq_of_lt (by omega)]
    split_ifs <;> omega
  · simp [wifiConnectSTA, hnc, h0, wifiTimeoutStart]
    rw [Nat.mod_eq_of_lt (by omega)]
    split_ifs <;> omega

/-- Witness for C7 at the wrap state: the advance formula applies at
currIndex 1 with maxIndex 3. -/
theorem c7_selector_wrap_witness :
    ((wifiConnectSTA cfgStd sWrap).1).currIndex
      = (if sWrap.currIndex = sWrap.maxIndex then 1 else sWrap.currIndex + 1) :=
  (c7_selector_wrap cfgStd sWrap rfl (by decide) (by decide) (by decide)).1

/-- The credential switch falls back to profile 1 for every index outside
profiles 1..numNetworks. -/
theorem selectProfile_fallback (cfg : WifiConfig) (i : Nat)
    (h : ¬(1 ≤ i ∧ i ≤ cfg.numNetworks)) : wifiSelectProfile cfg i = 1 := by
  unfold wifiSelectProfile
  split_ifs <;> omega

/-- Claim C10 (confirmed): in multi-profile mode credential selection is
total — for every current index that does not match a configured profile,
wifiGetSSID returns the profile-1 SSID, and wifiConnectSTA pushes
profile 1 credentials to the driver, both for a stale non-zero index above
numNetworks and for a corrupted persisted index loaded on the first
attempt. -/
theorem c10_profile_fallback (cfg : WifiConfig) (s : WifiState) :
    (¬(1 ≤ s.currIndex ∧ s.currIndex ≤ cfg.numNetworks) → wifiGetSSID cfg s = 1) ∧
    (s.currIndex ≠ 0 → s.indexNeedChange = false → cfg.numNetworks < s.currIndex →
      ((wifiConnectSTA cfg s).1).calls.count (DrvCall.setConfig 1)
        = s.calls.count (DrvCall.setConfig 1) + 1) ∧
    (∀ w : Nat, s.currIndex = 0 → s.nvsIndex = some w → w ≠ 0 → cfg.numNetworks < w →
      ((wifiConnectSTA cfg s).1).calls.count (DrvCall.setConfig 1)
        = s.calls.count (DrvCall.setConfig 1) + 1) := by
  refine ⟨?_, ?_, ?_⟩
  · intro hv
    unfold wifiGetSSID
    split_ifs <;> omega
  · intro h0 hnc hgt
    have hp : wifiSelectProfile cfg s.currIndex = 1 :=
      selectProfile_fallback cfg _ (by omega)
    simp [wifiConnectSTA, h0, hnc, hp, wifiTimeoutStart]
    split <;> simp [List.count_append]
  · intro w h0 hw hw0 hgt
    have hp : wifiSelectProfile cfg w = 1 :=
      selectProfile_fallback cfg _ (by omega)
    simp [wifiConnectSTA, h0, hw, hw0, hp, wifiTimeoutStart]
    split <;> simp [List.count_append]

/-- The corrupted-index state of claim C10: current index 200 with three
configured profiles. -/
def sCorrupt : WifiState := { sNeverUp with currIndex := 200 }

/-- Witness for C10 at index 200 with three profiles: the SSID falls back
to profile 1 and the connect attempt pushes profile 1 credentials. -/
theorem c10_profile_fallback_witness :
    wifiGetSSID cfgStd sCorrupt = 1 ∧
    ((wifiConnectSTA cfgStd sCorrupt).1).calls.count (DrvCall.setConfig 1)
      = sCorrupt.calls.count (DrvCall.setConfig 1) + 1 :=
  ⟨(c10_profile_fallback cfgStd sCorrupt).1 (by decide),
   (c10_profile_fallback cfgStd sCorrupt).2.1 (by decide) rfl (by decide)⟩

/-- The fresh-session state of claim C3: the state right after wifiStart
succeeded (TCP-IP and low-level init done, station enabled, adapter start
requested but the started event not yet delivered), with profile index 1
persisted from an earlier boot. -/
def sSession : WifiState :=
  ⟨true, true, true, true, false, false, false, false, false,
   0, 0, 0, 0, some 1, false, false, true, true, [], [], []⟩

/-- One failed connect cycle: the driver reports link-disconnected (reason
2) with its payload, and the handler immediately initiates the next
attempt. -/
def discFail : WifiEv := WifiEv.evDisconnect (DiscEvent.disconnected 2 true)

/-- The adapter-started event followed by n failed connect cycles from the
fresh session. -/
def c3run (n : Nat) : WifiState :=
  wifiRun cfgStd sSession (WifiEv.evStart :: List.replicate n discFail)

/-- Claim C3, counterexample: with reconnect threshold 3 and restart
threshold 6, after the 3rd consecutive failure the need-change flag is
still clear and the profile unchanged (the code requires attempts strictly
greater than the threshold), and after the 6th failure no adapter restart
of any form has been requested (no driver stop, no pending restore, no
factory restore). -/
theorem c3_escalation_counterexample :
    (c3run 3).indexNeedChange = false ∧
    (c3run 3).currIndex = 1 ∧
    (c3run 6).calls.count DrvCall.stopW = 0 ∧
    (c3run 6).discRestore = false ∧
    (c3run 6).calls.count DrvCall.restoreW = 0 := by
  decide

/-- Claim C3 (amended): with reconnect threshold 3 and restart threshold 6,
the need-change flag is first set — and the selected profile advances —
while handling the 4th consecutive failure (attempts must strictly exceed
the threshold), the profile cycles 1 to 2 to 3 and back to 1 over the
following failures, and the full adapter restart (the driver stop request
whose stop event restarts the radio) is issued while handling the 7th
failure, not the 6th. -/
theorem c3_escalation_ordering :
    (c3run 4).indexNeedChange = true ∧
    (c3run 4).currIndex = 2 ∧
    (c3run 5).currIndex = 3 ∧
    (c3run 6).currIndex = 1 ∧
    (c3run 6).calls.count DrvCall.stopW = 0 ∧
    (c3run 7).calls.count DrvCall.stopW = 1 ∧
    (c3run 7).attemptCount = 7 ∧
    (c3run 6).attemptCount = 7 := by
  decide

/-- Claim C8, counterexample: calling wifiStart twice from the boot state
without an intervening stop does not reproduce the single-call state — the
first call leaves StaEnabled set and succeeds, the second call fails and
leaves StaEnabled cleared. -/
theorem c8_start_counterexample :
    (wifiRun cfgStd initState [WifiEv.opStart]).staEnabled = true ∧
    (wifiStart initState).2 = true ∧
    (wifiRun cfgStd initState [WifiEv.opStart, WifiEv.opStart]).staEnabled = false ∧
    (wifiStart (wifiRun cfgStd initState [WifiEv.opStart])).2 = false := by
  decide

/-- Claim C8 (amended): wifiStart is not idempotent — from any state whose
status register exists and whose low-level init bit is already set (the
situation any successful wifiStart leaves behind), a further wifiStart
returns false, because wifiLowLevelInit reports failure when already
initialized, and it leaves StaEnabled cleared by the internal wifiStop, so
the second call differs from the first exactly in the Enabled bit. -/
theorem c8_start_not_idempotent (s : WifiState)
    (hb : s.hasStatusBits = true) (hl : s.lowlevelInit = true) :
    (wifiStart s).2 = false ∧ ((wifiStart s).1).staEnabled = false := by
  by_cases h2 : (wifiStop s).2 = true <;>
    simp [wifiStart, wifiLowLevelInit, hb, hl, h2]

/-- Witness for C8: the state left by the first successful wifiStart from
boot satisfies the premises, so the second call fails with Enabled clear. -/
theorem c8_start_not_idempotent_witness :
    ((wifiStart initState).1.hasStatusBits = true ∧
     (wifiStart initState).1.lowlevelInit = true) ∧
    ((wifiStart ((wifiStart initState).1)).2 = false ∧
     ((wifiStart ((wifiStart initState).1)).1).staEnabled = false) :=
  ⟨⟨by decide, by decide⟩,
   c8_start_not_idempotent ((wifiStart initState).1) (by decide) (by decide)⟩

/-- Claim C5 (confirmed): when the escalation entry point runs with neither
pending-disconnect flag set and the StaEnabled bit clear, it performs a
full stop — a connected link gets the disconnect request with the
pending-stop stage marked, a merely started station gets the driver stop
request — reports false, and initiates no connect attempt (no driver
connect request, attempt counter untouched); when the shared timer fires
in that state the fallback additionally restores and stops the driver, so
again at least one stop request and no connect attempt. -/
theorem c5_disabled_full_stop (cfg : WifiConfig) (s : WifiState)
    (hb : s.hasStatusBits = true) (hds : s.discStop = false)
    (hdr : s.discRestore = false) (he : s.staEnabled = false) :
    (wifiReconnectWiFi cfg s).2 = false ∧
    ((wifiReconnectWiFi cfg s).1).calls.count DrvCall.connectW
      = s.calls.count DrvCall.connectW ∧
    ((wifiReconnectWiFi cfg s).1).attemptCount = s.attemptCount ∧
    (s.staConnected = true →
      ((wifiReconnectWiFi cfg s).1).discStop = true ∧
      ((wifiReconnectWiFi cfg s).1).calls.count DrvCall.disconnectW
        = s.calls.count DrvCall.disconnectW + 1) ∧
    (s.staConnected = false → s.staStarted = true →
      ((wifiReconnectWiFi cfg s).1).calls.count DrvCall.stopW
        = s.calls.count DrvCall.stopW + 1) ∧
    (wifiTimeoutEnd cfg s).calls.count DrvCall.connectW
      = s.calls.count DrvCall.connectW ∧
    s.calls.count DrvCall.stopW < (wifiTimeoutEnd cfg s).calls.count DrvCall.stopW ∧
    (wifiTimeoutEnd cfg s).attemptCount = s.attemptCount := by
  refine ⟨?_, ?_, ?_, ?_, ?_, ?_, ?_, ?_⟩
  · simp [wifiReconnectWiFi, hb, hds, hdr, he]
  · simp [wifiReconnectWiFi, wifiStopWiFi, _wifiDisconnectSTA, _wifiStopSTA,
      wifiTimeoutStart, hb, hds, hdr, he]
    split <;> (try split) <;> simp [List.count_append]
  · simp [wifiReconnectWiFi, wifiStopWiFi, _wifiDisconnectSTA, _wifiStopSTA,
      wifiTimeoutStart, hb, hds, hdr, he]
  · intro hc
    constructor <;>
      simp [wifiReconnectWiFi, wifiStopWiFi, _wifiDisconnectSTA, _wifiStopSTA,
        wifiTimeoutStart, hb, hds, hdr, he, hc, List.count_append]
  · intro hc hst
    simp [wifiReconnectWiFi, wifiStopWiFi, _wifiDisconnectSTA, _wifiStopSTA,
      wifiTimeoutStart, hb, hds, hdr, he, hc, hst, List.count_append]
  · simp [wifiTimeoutEnd, wifiReconnectOrDie, wifiReconnectWiFi, wifiStopWiFi,
      _wifiDisconnectSTA, _wifiStopSTA, _wifiRestoreSTA,
      wifiTimeoutStart, hb, hds, hdr, he]
    split <;> (try split) <;> simp [List.count_append]
  · simp [wifiTimeoutEnd, wifiReconnectOrDie, wifiReconnectWiFi, wifiStopWiFi,
      _wifiDisconnectSTA, _wifiStopSTA, _wifiRestoreSTA,
      wifiTimeoutStart, hb, hds, hdr, he]
    split <;> (try split) <;> simp [List.count_append] <;> omega
  · simp [wifiTimeoutEnd, wifiReconnectOrDie, wifiReconnectWiFi, wifiStopWiFi,
      _wifiDisconnectSTA, _wifiStopSTA, _wifiRestoreSTA,
      wifiTimeoutStart, hb, hds, hdr, he]

/-- The disabled started state of claim C5: no pending flags, Enabled
clear, station still started. -/
def sDisabled : WifiState := { sNeverUp with staEnabled := false }

/-- Witness for C5 at the disabled started state: the escalation reports
false and the started station receives exactly one driver stop request. -/
theorem c5_disabled_full_stop_witness :
    (wifiReconnectWiFi cfgStd sDisabled).2 = false ∧
    ((wifiReconnectWiFi cfgStd sDisabled).1).calls.count DrvCall.stopW
      = sDisabled.calls.count DrvCall.stopW + 1 :=
  ⟨(c5_disabled_full_stop cfgStd sDisabled rfl rfl rfl rfl).1,
   (c5_disabled_full_stop cfgStd sDisabled rfl rfl rfl rfl).2.2.2.2.1 rfl rfl⟩

/-- The invariant of claim C2: a set GotIp bit implies a set Connected
bit. -/
def gotIpInv (s : WifiState) : Prop := s.staGotIp = true → s.staConnected = true

/-- One step preserves the invariant, provided a got-ip event is only
delivered while the link is connected (when the status register exists at
all — without it the handler cannot set any bit). -/
theorem stepEv_gotIpInv (cfg : WifiConfig) (e : WifiEv) (s : WifiState)
    (h : gotIpInv s)
    (hg : e = WifiEv.evGotIp → s.hasStatusBits = true → s.staConnected = true) :
    gotIpInv (stepEv cfg e s) := by
  unfold gotIpInv at *
  cases e with
  | evStart =>
      by_cases hb : s.hasStatusBits <;>
        simp [stepEv, wifiEventHandler_Start, eventLoopPost, hb, h] <;> exact h
  | evConnect =>
      by_cases hb : s.hasStatusBits <;>
        simp [stepEv, wifiEventHandler_Connect, wifiTimeoutStart, hb, h] <;> exact h
  | evDisconnect d =>
      by_cases hb : s.hasStatusBits <;> cases d <;>
        simp [stepEv, wifiEventHandler_Disconnect, eventLoopPost, hb, h] <;> exact h
  | evStop =>
      by_cases hb : s.hasStatusBits <;>
        simp [stepEv, wifiEventHandler_Stop, eventLoopPost, hb, h] <;> exact h
  | evGotIp =>
      by_cases hb : s.hasStatusBits <;>
        simp [stepEv, wifiEventHandler_GotIP, eventLoopPost, hb, h, hg rfl] <;> exact h
  | opInit =>
      by_cases hb : s.hasStatusBits <;> simp [stepEv, wifiInit, hb, h] <;> exact h
  | opStart =>
      by_cases hb : s.hasStatusBits <;> simp [stepEv, wifiStart, wifiInit, hb, h] <;> exact h
  | opStop => simp [stepEv, h] <;> exact h
  | opFree => simp [stepEv, wifiFree, h] <;> exact h
  | opTimerFire => simp [stepEv, h] <;> exact h

/-- Running any driver-consistent sequence preserves the invariant. -/
theorem okRun_gotIpInv (cfg : WifiConfig) (evs : List WifiEv) :
    ∀ s : WifiState, gotIpInv s → okRun cfg s evs = true →
      gotIpInv (wifiRun cfg s evs) := by
  induction evs with
  | nil => exact fun s h _ => h
  | cons e rest ih =>
    intro s h hok
    have hrun : wifiRun cfg s (e :: rest) = wifiRun cfg (stepEv cfg e s) rest := rfl
    rw [hrun]
    cases e with
    | evGotIp =>
        simp only [okRun, Bool.and_eq_true, Bool.or_eq_true, Bool.not_eq_true'] at hok
        refine ih _ (stepEv_gotIpInv cfg _ s h ?_) hok.2
        intro _ hb
        rcases hok.1 with h1 | h1
        · rw [hb] at h1; cases h1
        · exact h1
    | evStart =>
        exact ih _ (stepEv_gotIpInv cfg _ s h (fun hEq => nomatch hEq)) hok
    | evConnect =>
        exact ih _ (stepEv_gotIpInv cfg _ s h (fun hEq => nomatch hEq)) hok
    | evDisconnect d =>
        exact ih _ (stepEv_gotIpInv cfg _ s h (fun hEq => nomatch hEq)) hok
    | evStop =>
        exact ih _ (stepEv_gotIpInv cfg _ s h (fun hEq => nomatch hEq)) hok
    | opInit =>
        exact ih _ (stepEv_gotIpInv cfg _ s h (fun hEq => nomatch hEq)) hok
    | opStart =>
        exact ih _ (stepEv_gotIpInv cfg _ s h (fun hEq => nomatch hEq)) hok
    | opStop =>
        exact ih _ (stepEv_gotIpInv cfg _ s h (fun hEq => nomatch hEq)) hok
    | opFree =>
        exact ih _ (stepEv_gotIpInv cfg _ s h (fun hEq => nomatch hEq)) hok
    | opTimerFire =>
        exact ih _ (stepEv_gotIpInv cfg _ s h (fun hEq => nomatch hEq)) hok

/-- Claim C2, counterexample: under the reachability universe of the claim
— arbitrary sequences of handlers and public operations — delivering a
got-ip event right after initialization yields a state with GotIp set and
Connected clear, because the got-ip handler sets GotIp without checking
the link. -/
theorem c2_unconstrained_counterexample :
    (wifiRun cfgStd initState [WifiEv.opInit, WifiEv.evGotIp]).staGotIp = true ∧
    (wifiRun cfgStd initState [WifiEv.opInit, WifiEv.evGotIp]).staConnected = false := by
  decide

/-- Claim C2 (amended): in every state reachable from the all-clear boot
state by a driver-consistent sequence of events and public operations —
one in which each got-ip event is delivered while the link is connected,
as the network stack guarantees — a set GotIp bit implies a set Connected
bit. -/
theorem c2_gotIp_implies_connected (cfg : WifiConfig) (evs : List WifiEv)
    (hok : okRun cfg initState evs = true) :
    (wifiRun cfg initState evs).staGotIp = true →
    (wifiRun cfg initState evs).staConnected = true :=
  okRun_gotIpInv cfg evs initState
    (fun hgot => absurd hgot (by decide)) hok

/-- The driver-consistent scenario of the design document: start, adapter
started, link connected, got ip. -/
def c2Scenario : List WifiEv :=
  [WifiEv.opStart, WifiEv.evStart, WifiEv.evConnect, WifiEv.evGotIp]

/-- Witness for C2 on the standard bring-up scenario. -/
theorem c2_gotIp_implies_connected_witness :
    okRun cfgStd initState c2Scenario = true ∧
    ((wifiRun cfgStd initState c2Scenario).staGotIp = true →
     (wifiRun cfgStd initState c2Scenario).staConnected = true) :=
  ⟨by decide, c2_gotIp_implies_connected cfgStd c2Scenario (by decide)⟩
